import Mathlib

set_option maxRecDepth 40000

/-!
Verification of the normalization and record-preparation pipeline of the
scraper-superbid repository against its specification.

The Python source is shallowly embedded: Python values are modelled by the
inductive type `PyVal` (floats as exact rationals, so non-finite floats and
binary rounding artifacts are outside the model), Python exceptions by
`Except PyErr`, and the handful of library builtins used by the code
(`str.lower`, `str.strip`, `re.sub` with the specific patterns appearing in
the source, `float`, `int`, `round`, `json.loads`, `datetime` parsing) by
executable Lean functions or, for the datetime/JSON parsers, by explicit
environment parameters.  Case mapping and character classes are modelled for
ASCII plus the Latin-1 letters that actually occur in the repository data.
-/

/-- Model of a Python value as produced by `json` decoding: `None`, booleans,
integers, floats (modelled as exact rationals), strings, lists and
string-keyed dictionaries. -/
inductive PyVal where
  | none
  | bool (b : Bool)
  | int (n : Int)
  | float (q : Rat)
  | str (s : String)
  | list (xs : List PyVal)
  | dict (xs : List (String × PyVal))

/-- Model of the Python exception classes that the embedded code can raise. -/
inductive PyErr where
  | attributeError
  | typeError
deriving DecidableEq

/-- Python truthiness (`bool(v)`): `None`, `False`, `0`, `0.0`, `""` and empty
containers are falsy, everything else is truthy. -/
def truthy : PyVal → Bool
  | .none => false
  | .bool b => b
  | .int n => n != 0
  | .float q => q != 0
  | .str s => s != ""
  | .list xs => !xs.isEmpty
  | .dict xs => !xs.isEmpty

/-- Lookup of a key in a (string-keyed) Python dict, as an option. -/
def lookupVal (xs : List (String × PyVal)) (k : String) : Option PyVal :=
  (xs.find? (fun p => p.1 == k)).map (fun p => p.2)

/-- Python `d.get(k, default)` on a dict given by its entry list. -/
def lookupD (xs : List (String × PyVal)) (k : String) (d : PyVal) : PyVal :=
  (lookupVal xs k).getD d

/-- Python `v.get(k)` (raises `AttributeError` unless `v` is a dict). -/
def pyGetE (v : PyVal) (k : String) : Except PyErr PyVal :=
  match v with
  | .dict xs => .ok (lookupD xs k .none)
  | _ => .error .attributeError

/-- Python `v.get(k, d)` (raises `AttributeError` unless `v` is a dict). -/
def pyGetD (v : PyVal) (k : String) (d : PyVal) : Except PyErr PyVal :=
  match v with
  | .dict xs => .ok (lookupD xs k d)
  | _ => .error .attributeError

/-- ASCII uppercasing of one character (`chr(ord(c) - 32)` on `a`-`z`),
modelling Python case mapping on the ASCII range. -/
def chUp (c : Char) : Char :=
  if 97 ≤ c.toNat ∧ c.toNat ≤ 122 then Char.ofNat (c.toNat - 32) else c

/-- ASCII lowercasing of one character. -/
def chDown (c : Char) : Char :=
  if 65 ≤ c.toNat ∧ c.toNat ≤ 90 then Char.ofNat (c.toNat + 32) else c

/-- The characters Python `str.strip()` and the regex class `\s` treat as
whitespace (restricted to the ASCII range of the model). -/
def isPyWS (c : Char) : Bool :=
  c == ' ' || c == '\t' || c == '\n' || c == '\r' || c == '\x0b' || c == '\x0c'

/-- ASCII decimal digit test (regex class `\d`, ASCII range of the model). -/
def isDigitCh (c : Char) : Bool :=
  48 ≤ c.toNat && c.toNat ≤ 57

def isAsciiLower (c : Char) : Bool :=
  97 ≤ c.toNat && c.toNat ≤ 122

def isAsciiUpper (c : Char) : Bool :=
  65 ≤ c.toNat && c.toNat ≤ 90

/-- The accented Latin letters occurring in the repository data; they count as
word characters for the regex class `\w` (Python treats every Unicode letter
as a word character; the model covers the ones the source can meet). -/
def accentedLetters : List Char :=
  ['á', 'à', 'â', 'ã', 'ä', 'é', 'è', 'ê', 'ë', 'í', 'ì', 'î', 'ï',
   'ó', 'ò', 'ô', 'õ', 'ö', 'ú', 'ù', 'û', 'ü', 'ç', 'ñ',
   'Á', 'À', 'Â', 'Ã', 'Ä', 'É', 'È', 'Ê', 'Ë', 'Í', 'Ì', 'Î', 'Ï',
   'Ó', 'Ò', 'Ô', 'Õ', 'Ö', 'Ú', 'Ù', 'Û', 'Ü', 'Ç', 'Ñ', 'ª', 'º']

/-- Word character test (regex class `\w` in the model). -/
def isWordCh (c : Char) : Bool :=
  isDigitCh c || isAsciiLower c || isAsciiUpper c || c == '_' ||
    accentedLetters.contains c

/-- Python `s.lower()` (ASCII case mapping in the model). -/
def lowerStr (s : String) : String :=
  String.mk (s.data.map chDown)

/-- Python `s.upper()` (ASCII case mapping in the model). -/
def upperStr (s : String) : String :=
  String.mk (s.data.map chUp)

/-- Drop leading and trailing whitespace from a character list. -/
def stripList (l : List Char) : List Char :=
  ((l.dropWhile isPyWS).reverse.dropWhile isPyWS).reverse

/-- Python `s.strip()` (whitespace restricted to the model set). -/
def pyStrip (s : String) : String :=
  String.mk (stripList s.data)

/-- Python `s.rstrip(",")`: drop trailing commas. -/
def rstripComma (s : String) : String :=
  String.mk ((s.data.reverse.dropWhile (fun c => c == ',')).reverse)

/-- Rendering of a rational for Python `str()` on a float.  Simplified model:
integral values print as `n.0` like Python; other rationals are printed as
fractions rather than in Python float notation (no claim evaluates these). -/
def ratStr (q : Rat) : String :=
  if q.den == 1 then toString q.num ++ ".0"
  else toString q.num ++ "/" ++ toString q.den

/-- Python `str(v)`.  Strings pass through; scalars print as in Python; the
rendering of containers is abbreviated to their bracket shell (no claim
depends on container printing, and no bracketed rendering is ever a valid
two-letter state code or a numeral). -/
def pyStr : PyVal → String
  | .none => "None"
  | .bool true => "True"
  | .bool false => "False"
  | .int n => toString n
  | .float q => ratStr q
  | .str s => s
  | .list _ => "[...]"
  | .dict _ => "\x7b...\x7d"

/-- Python `str.split()` (split on whitespace runs, dropping empty pieces),
as a structurally recursive accumulator scan. -/
def splitWSAux (acc : List Char) : List Char → List String
  | [] => if acc.isEmpty then [] else [String.mk acc.reverse]
  | c :: cs =>
    if isPyWS c then
      if acc.isEmpty then splitWSAux [] cs
      else String.mk acc.reverse :: splitWSAux [] cs
    else splitWSAux (c :: acc) cs

def pySplit (s : String) : List String :=
  splitWSAux [] s.data

/-- Python `" ".join(ws)`. -/
def joinSpace : List String → String
  | [] => ""
  | [w] => w
  | w :: ws => w ++ " " ++ joinSpace ws

/-- Python `s.split(ch)` on a single-character separator (keeps empties). -/
def splitChAux (sep : Char) (acc : List Char) : List Char → List String
  | [] => [String.mk acc.reverse]
  | c :: cs =>
    if c == sep then String.mk acc.reverse :: splitChAux sep [] cs
    else splitChAux sep (c :: acc) cs

def splitCh (sep : Char) (s : String) : List String :=
  splitChAux sep [] s.data

/-- Does `needle` occur at the head of `hay`? (list prefix test). -/
def startsWithCL : List Char → List Char → Bool
  | [], _ => true
  | _ :: _, [] => false
  | n :: ns, h :: hs => n == h && startsWithCL ns hs

/-- Python `needle in hay` substring test over character lists. -/
def containsSub (needle : List Char) : List Char → Bool
  | [] => needle.isEmpty
  | c :: cs => startsWithCL needle (c :: cs) || containsSub needle cs

/-- Python `s.replace(pat, repl)` for a non-empty literal pattern: leftmost,
non-overlapping, scanning the text once (fuel-based structural recursion;
the fuel is always at least the text length, so it never runs out). -/
def replaceSubF (pat repl : List Char) : Nat → List Char → List Char
  | 0, l => l
  | _ + 1, [] => []
  | f + 1, c :: cs =>
    if startsWithCL pat (c :: cs) && !pat.isEmpty then
      repl ++ replaceSubF pat repl f (List.drop (pat.length - 1) cs)
    else
      c :: replaceSubF pat repl f cs

def replaceSub (pat repl : String) (s : String) : String :=
  String.mk (replaceSubF pat.data repl.data (s.data.length + 1) s.data)

/-- Python `s.split(sep)` for a multi-character separator (fuel-based). -/
def splitSepF (sep : List Char) : Nat → List Char → List Char → List String
  | 0, acc, rest => [String.mk (acc.reverse ++ rest)]
  | _ + 1, acc, [] => [String.mk acc.reverse]
  | f + 1, acc, c :: cs =>
    if startsWithCL sep (c :: cs) && !sep.isEmpty then
      String.mk acc.reverse :: splitSepF sep f [] (List.drop (sep.length - 1) cs)
    else
      splitSepF sep f (c :: acc) cs

def splitSep (sep : String) (s : String) : List String :=
  splitSepF sep.data (s.data.length + 1) [] s.data

/-! ### A small matching engine for the regex substitutions of the source

Each `re.sub` call in the source uses one fixed pattern; every pattern is
modelled by a dedicated matcher.  A matcher receives the character preceding
the current position (for word boundaries) and the rest of the text, and
returns the number of characters consumed (always at least 1) together with
the replacement text.  The driver scans left to right and does not rescan
replacements, exactly like `re.sub`. -/

/-- Partial-match state: characters consumed so far, and the remaining text. -/
abbrev MSt := Nat × List Char

/-- Does the literal match at the head of the text (optionally ignoring ASCII
case)? -/
def litAt (icase : Bool) : List Char → List Char → Bool
  | [], _ => true
  | _ :: _, [] => false
  | p :: ps, c :: cs =>
    (if icase then chDown p == chDown c else p == c) && litAt icase ps cs

/-- Consume a literal. -/
def mLit (icase : Bool) (lit : String) (st : MSt) : Option MSt :=
  if litAt icase lit.data st.2 then
    some (st.1 + lit.data.length, st.2.drop lit.data.length)
  else Option.none

/-- Consume a (possibly empty) maximal run of characters of a class
(`p*`, greedy). -/
def mStar (p : Char → Bool) (st : MSt) : MSt :=
  (st.1 + (st.2.takeWhile p).length, st.2.dropWhile p)

/-- Consume a non-empty maximal run of characters of a class (`p+`, greedy). -/
def mPlus (p : Char → Bool) (st : MSt) : Option MSt :=
  if (st.2.takeWhile p).isEmpty then Option.none else some (mStar p st)

/-- Consume one character of a class. -/
def mChar (p : Char → Bool) (st : MSt) : Option MSt :=
  match st.2 with
  | c :: cs => if p c then some (st.1 + 1, cs) else Option.none
  | [] => Option.none

/-- Consume exactly `k` characters of a class (`p{k}`). -/
def mCount (p : Char → Bool) (k : Nat) (st : MSt) : Option MSt :=
  if (st.2.take k).length == k && (st.2.take k).all p then
    some (st.1 + k, st.2.drop k)
  else Option.none

/-- Optionally consume one character of a class (`p?`). -/
def mOptChar (p : Char → Bool) (st : MSt) : MSt :=
  (mChar p st).getD st

/-- Optionally consume a literal (`lit?`). -/
def mOptLit (icase : Bool) (lit : String) (st : MSt) : MSt :=
  (mLit icase lit st).getD st

/-- Optionally consume the first literal of a list that matches
(`(?:a|b|c)?`). -/
def mAltLit (icase : Bool) (lits : List String) (st : MSt) : MSt :=
  match lits with
  | [] => st
  | l :: ls => match mLit icase l st with
    | some st2 => st2
    | Option.none => mAltLit icase ls st

/-- A matcher: previous original character (for `\b`), rest of the text,
result = consumed count (≥ 1) and replacement. -/
abbrev Matcher := Option Char → List Char → Option (Nat × List Char)

/-- The `re.sub` driver: scan left to right, apply the matcher at each
position, emit replacements, never rescan them.  Fuel-based structural
recursion; callers pass fuel larger than the text length. -/
def reSubF (m : Matcher) : Nat → Option Char → List Char → List Char
  | 0, _, l => l
  | _ + 1, _, [] => []
  | f + 1, prev, c :: cs =>
    match m prev (c :: cs) with
    | some (k, repl) =>
      if k == 0 then c :: reSubF m f (some c) cs
      else repl ++ reSubF m f (((c :: cs).take k).getLast?) (List.drop (k - 1) cs)
    | Option.none => c :: reSubF m f (some c) cs

def reSub (m : Matcher) (s : String) : String :=
  String.mk (reSubF m (s.data.length + 1) Option.none s.data)

/-- Lift a matcher that ignores the left context. -/
def noCtx (m : List Char → Option (Nat × List Char)) : Matcher :=
  fun _ l => m l

/-- Pattern `<[^>]+>` → removed (generic HTML tag). -/
def tagMatch (l : List Char) : Option (Nat × List Char) :=
  match l with
  | '<' :: rest =>
    let k := (rest.takeWhile (fun c => c != '>')).length
    if k == 0 then Option.none
    else match rest.drop k with
      | '>' :: _ => some (k + 2, [])
      | _ => Option.none
  | _ => Option.none

/-- Pattern `<br\s*/?>` (ignoring case) → newline. -/
def brMatch (l : List Char) : Option (Nat × List Char) := do
  let st ← mLit true "<br" (0, l)
  let st := mStar isPyWS st
  let st := mOptLit false "/" st
  let st ← mLit false ">" st
  some (st.1, ['\n'])

/-- Pattern `<p>` (ignoring case) → blank-line separator. -/
def pOpenMatch (l : List Char) : Option (Nat × List Char) := do
  let st ← mLit true "<p>" (0, l)
  some (st.1, ['\n', '\n'])

/-- Pattern `</p>` (ignoring case) → newline. -/
def pCloseMatch (l : List Char) : Option (Nat × List Char) := do
  let st ← mLit true "</p>" (0, l)
  some (st.1, ['\n'])

/-- Pattern `&#\d+;` → removed (numeric character reference). -/
def numEntityMatch (l : List Char) : Option (Nat × List Char) := do
  let st ← mLit false "&#" (0, l)
  let st ← mPlus isDigitCh st
  let st ← mLit false ";" st
  some (st.1, [])

/-- One of the characters the pattern class `pra[çc]a` can have in third
position, under `re.IGNORECASE`. -/
def isCCedilla (c : Char) : Bool :=
  c == 'ç' || c == 'c' || c == 'C' || c == 'Ç'

/-- Pattern `\d+%\s*(?:abaixo|desconto|off)?\s*na\s*\d+[ªº]\s*pra[çc]a` (ignoring
case) → removed: the full round/discount phrase. -/
def pracaFullMatch (l : List Char) : Option (Nat × List Char) := do
  let st ← mPlus isDigitCh (0, l)
  let st ← mLit false "%" st
  let st := mStar isPyWS st
  let st := mAltLit true ["abaixo", "desconto", "off"] st
  let st := mStar isPyWS st
  let st ← mLit true "na" st
  let st := mStar isPyWS st
  let st ← mPlus isDigitCh st
  let st ← mChar (fun c => c == 'ª' || c == 'º') st
  let st := mStar isPyWS st
  let st ← mLit true "pra" st
  let st ← mChar isCCedilla st
  let st ← mLit true "a" st
  some (st.1, [])

/-- Pattern `\d+[ªº]\s*pra[çc]a` (ignoring case) → removed: the bare round phrase. -/
def pracaShortMatch (l : List Char) : Option (Nat × List Char) := do
  let st ← mPlus isDigitCh (0, l)
  let st ← mChar (fun c => c == 'ª' || c == 'º') st
  let st := mStar isPyWS st
  let st ← mLit true "pra" st
  let st ← mChar isCCedilla st
  let st ← mLit true "a" st
  some (st.1, [])

/-- Pattern `^LOTE\s+\d+\s*[-:–—]?\s*` (ignoring case, anchored): strip a leading
lot marker; a direct function since the pattern only applies at position 0. -/
def stripLote (l : List Char) : List Char :=
  match (do
    let st ← mLit true "LOTE" (0, l)
    let st ← mPlus isPyWS st
    let st ← mPlus isDigitCh st
    let st := mStar isPyWS st
    let st := mOptChar (fun c => c == '-' || c == ':' || c == '–' || c == '—') st
    let st := mStar isPyWS st
    some st) with
  | some st => st.2
  | Option.none => l

/-- Pattern `\s*,?\s*Placa\s+FINAL\s+\d+\s*\([A-Z]{2}\)\s*,?` (ignoring case, so the
letter class also admits lowercase) → removed. -/
def placaMatch (l : List Char) : Option (Nat × List Char) := do
  let st := mStar isPyWS (0, l)
  let st := mOptLit false "," st
  let st := mStar isPyWS st
  let st ← mLit true "Placa" st
  let st ← mPlus isPyWS st
  let st ← mLit true "FINAL" st
  let st ← mPlus isPyWS st
  let st ← mPlus isDigitCh st
  let st := mStar isPyWS st
  let st ← mLit false "(" st
  let st ← mChar (fun c => isAsciiLower c || isAsciiUpper c) st
  let st ← mChar (fun c => isAsciiLower c || isAsciiUpper c) st
  let st ← mLit false ")" st
  let st := mStar isPyWS st
  let st := mOptLit false "," st
  some (st.1, [])

/-- Pattern `R\$\s*[\d.,]+` (case-sensitive) → removed: embedded currency amounts. -/
def currencyMatch (l : List Char) : Option (Nat × List Char) := do
  let st ← mLit false "R$" (0, l)
  let st := mStar isPyWS st
  let st ← mPlus (fun c => isDigitCh c || c == '.' || c == ',') st
  some (st.1, [])

/-- Pattern `\b0+(\d{1,2})\b` → the capture: drop leading zeros of short standalone
numbers.  A maximal digit run bounded by word boundaries matches when it
starts with a zero and keeps at most two digits after the greedy `0+`; the
replacement is the last one or two characters of the run. -/
def zerosMatch : Matcher := fun prev l =>
  if (match prev with | some p => isWordCh p | Option.none => false) then
    Option.none
  else
    let run := l.takeWhile isDigitCh
    let rest := l.dropWhile isDigitCh
    if run.isEmpty then Option.none
    else if (match rest with | c :: _ => isWordCh c | [] => false) then
      Option.none
    else
      let z := (run.takeWhile (fun c => c == '0')).length
      if 1 ≤ z ∧ 2 ≤ run.length ∧ run.length ≤ z + 2 then
        some (run.length, run.drop (min z (run.length - 1)))
      else Option.none

/-- Pattern `\b\d+\s+\d+\s+\d+\b` → removed: three consecutive bare integers. -/
def tripletMatch : Matcher := fun prev l =>
  if (match prev with | some p => isWordCh p | Option.none => false) then
    Option.none
  else (do
    let st ← mPlus isDigitCh (0, l)
    let st ← mPlus isPyWS st
    let st ← mPlus isDigitCh st
    let st ← mPlus isPyWS st
    let st ← mPlus isDigitCh st
    match st.2 with
    | c :: _ => if isWordCh c then Option.none else some (st.1, [])
    | [] => some (st.1, []))

/-- Pattern `https?://[^\s]+` → removed: bare URLs. -/
def urlMatch (l : List Char) : Option (Nat × List Char) := do
  let st ← mLit false "http" (0, l)
  let st := mOptLit false "s" st
  let st ← mLit false "://" st
  let st ← mPlus (fun c => !isPyWS c) st
  some (st.1, [])

/-- Pattern `\S+@\S+` → removed: bare e-mail addresses.  The match is a maximal
non-whitespace run containing an `@` that is neither its first nor its last
character. -/
def emailMatch (l : List Char) : Option (Nat × List Char) :=
  let run := l.takeWhile (fun c => !isPyWS c)
  if run.length < 3 then Option.none
  else if ((run.drop 1).dropLast).contains '@' then some (run.length, [])
  else Option.none

/-- Pattern `\(\d{2}\)\s*\d{4,5}-?\d{4}` → removed: Brazilian phone numbers; the
greedy `\d{4,5}` tries five digits before four. -/
def phoneMatch (l : List Char) : Option (Nat × List Char) := do
  let st ← mLit false "(" (0, l)
  let st ← mCount isDigitCh 2 st
  let st ← mLit false ")" st
  let st := mStar isPyWS st
  let tryLen := fun (j : Nat) => (do
    let st2 ← mCount isDigitCh j st
    let st2 := mOptLit false "-" st2
    let st2 ← mCount isDigitCh 4 st2
    some st2 : Option MSt)
  let st ← (tryLen 5).orElse (fun _ => tryLen 4)
  some (st.1, [])

/-- Pattern `Exibindo \d+ de \d+ itens` (ignoring case) → removed: pagination
boilerplate. -/
def exibindoMatch (l : List Char) : Option (Nat × List Char) := do
  let st ← mLit true "Exibindo " (0, l)
  let st ← mPlus isDigitCh st
  let st ← mLit true " de " st
  let st ← mPlus isDigitCh st
  let st ← mLit true " itens" st
  some (st.1, [])

/-- Pattern `\n\s*\n\s*\n+` → two newlines: a whitespace span holding three or more
newlines collapses, greedily up to its last newline. -/
def newlines3Match (l : List Char) : Option (Nat × List Char) :=
  match l with
  | '\n' :: _ =>
    let span := l.takeWhile isPyWS
    if 3 ≤ (span.filter (fun c => c == '\n')).length then
      some (span.length - (span.reverse.takeWhile (fun c => c != '\n')).length,
            ['\n', '\n'])
    else Option.none
  | _ => Option.none

/-- Pattern of two or more literal spaces → one space. -/
def spaces2Match (l : List Char) : Option (Nat × List Char) :=
  match l with
  | ' ' :: ' ' :: _ => some ((l.takeWhile (fun c => c == ' ')).length, [' '])
  | _ => Option.none

/-- Pattern `\s+` → one space: collapse every whitespace run. -/
def wsRunMatch (l : List Char) : Option (Nat × List Char) :=
  match l with
  | c :: _ =>
    if isPyWS c then some ((l.takeWhile isPyWS).length, [' ']) else Option.none
  | [] => Option.none

/-- Pattern `-j\d+$` (ignoring case): strip a trailing MegaLeilões lot code. -/
def stripJSuffix (l : List Char) : List Char :=
  let r := l.reverse
  let ds := r.takeWhile isDigitCh
  if ds.isEmpty then l
  else match r.drop ds.length with
    | j :: '-' :: rest => if chDown j == 'j' then rest.reverse else l
    | _ => l

/-- Pattern `-\d{5,}$`: strip a trailing long numeric code. -/
def stripNum5Suffix (l : List Char) : List Char :=
  let r := l.reverse
  let ds := r.takeWhile isDigitCh
  if 5 ≤ ds.length then
    match r.drop ds.length with
    | '-' :: rest => rest.reverse
    | _ => l
  else l

/-- Helper for `re.sub` with pattern `\s+` → one space, used all over the normalizer. -/
def collapseWS (s : String) : String :=
  reSub (noCtx wsRunMatch) s

/-! ### Numeric coercions (`float`, `int`, `round`) -/

/-- Value of a digit string. -/
def digitsVal (l : List Char) : Nat :=
  l.foldl (fun a c => a * 10 + (c.toNat - 48)) 0

/-- The exponent part of a float literal, after the `e`/`E`. -/
def parseExpPart (l : List Char) : Option Int :=
  match l with
  | '+' :: ds =>
    if ds.isEmpty || !ds.all isDigitCh then Option.none
    else some (digitsVal ds : Int)
  | '-' :: ds =>
    if ds.isEmpty || !ds.all isDigitCh then Option.none
    else some (-(digitsVal ds : Int))
  | ds =>
    if ds.isEmpty || !ds.all isDigitCh then Option.none
    else some (digitsVal ds : Int)

/-- The value `sign * (ipart.fpart) * 10^e` of a float literal, assembled
with integer arithmetic and one `mkRat` (kept kernel-reducible on purpose). -/
def floatLitVal (sign : Int) (ipart fpart : List Char) (e : Int) : Rat :=
  let m : Int := sign * ((digitsVal ipart : Int) * 10 ^ fpart.length + (digitsVal fpart : Int))
  if 0 ≤ e then mkRat (m * 10 ^ e.toNat) (10 ^ fpart.length)
  else mkRat m (10 ^ fpart.length * 10 ^ (-e).toNat)

/-- An unsigned float literal: digits, optional point and fraction digits
(at least one digit overall), optional exponent. -/
def parseUnsignedFloat (sign : Int) (l : List Char) : Option Rat :=
  let ip := l.takeWhile isDigitCh
  let rest := l.dropWhile isDigitCh
  match rest with
  | [] => if ip.isEmpty then Option.none else some (floatLitVal sign ip [] 0)
  | '.' :: rest2 =>
    let fp := rest2.takeWhile isDigitCh
    let rest3 := rest2.dropWhile isDigitCh
    if ip.isEmpty && fp.isEmpty then Option.none
    else
      match rest3 with
      | [] => some (floatLitVal sign ip fp 0)
      | e :: rest4 =>
        if e == 'e' || e == 'E' then
          (parseExpPart rest4).map (fun x => floatLitVal sign ip fp x)
        else Option.none
  | e :: rest2 =>
    if (e == 'e' || e == 'E') && !ip.isEmpty then
      (parseExpPart rest2).map (fun x => floatLitVal sign ip [] x)
    else Option.none

/-- A float literal as accepted by Python `float(str)` (simplified: `inf`,
`nan` and underscore separators are not modelled). -/
def parseFloatChars (l : List Char) : Option Rat :=
  match l with
  | '+' :: rest => parseUnsignedFloat 1 rest
  | '-' :: rest => parseUnsignedFloat (-1) rest
  | _ => parseUnsignedFloat 1 l

/-- An int literal as accepted by Python `int(str)` (simplified: underscore
separators are not modelled). -/
def parseIntChars (l : List Char) : Option Int :=
  match l with
  | '+' :: ds =>
    if ds.isEmpty || !ds.all isDigitCh then Option.none
    else some (digitsVal ds : Int)
  | '-' :: ds =>
    if ds.isEmpty || !ds.all isDigitCh then Option.none
    else some (-(digitsVal ds : Int))
  | ds =>
    if ds.isEmpty || !ds.all isDigitCh then Option.none
    else some (digitsVal ds : Int)

/-- Python `float(v)`: `None` and containers raise `TypeError` (here:
`Option.none`), booleans coerce to 0/1, strings are stripped and parsed. -/
def pyFloat : PyVal → Option Rat
  | .bool b => some (if b then 1 else 0)
  | .int n => some (n : Rat)
  | .float q => some q
  | .str s => parseFloatChars (stripList s.data)
  | _ => Option.none

/-- Truncation toward zero, as Python `int(float)` (`Int.tdiv` is the
truncating division). -/
def truncRat (q : Rat) : Int :=
  q.num.tdiv q.den

/-- Python `int(v)`: floats truncate toward zero, strings are stripped and
parsed, `None` and containers raise (here: `Option.none`). -/
def pyInt : PyVal → Option Int
  | .bool b => some (if b then 1 else 0)
  | .int n => some n
  | .float q => some (truncRat q)
  | .str s => parseIntChars (stripList s.data)
  | _ => Option.none

/-- Round half to even, as Python `round` on the exact rational model: the
midpoint between `⌊x⌋` and `⌊x⌋ + 1` is `(2⌊x⌋ + 1)/2`, written with `mkRat`
to stay kernel-reducible. -/
def roundHalfEven (x : Rat) : Int :=
  let f := x.floor
  if x < mkRat (2 * f + 1) 2 then f
  else if mkRat (2 * f + 1) 2 < x then f + 1
  else if f % 2 == 0 then f else f + 1

/-- Python `round(q, 2)` on the exact rational model (binary floating-point
representation error is outside the model): `mkRat (q.num * 100) q.den` is
`q * 100` and the result is `roundHalfEven (q * 100) / 100`. -/
def pyRound2 (q : Rat) : Rat :=
  mkRat (roundHalfEven (mkRat (q.num * 100) q.den)) 100

/-! ### `UniversalNormalizer` (src/scrapers/normalizer.py) -/

/-- Model of `UniversalNormalizer.VALID_STATES`. -/
def validStates : List String :=
  ["AC", "AL", "AP", "AM", "BA", "CE", "DF", "ES", "GO", "MA",
   "MT", "MS", "MG", "PA", "PB", "PR", "PE", "PI", "RJ", "RN",
   "RS", "RO", "RR", "SC", "SP", "SE", "TO"]

/-- Model of `UniversalNormalizer.LOWERCASE_WORDS`. -/
def lowercaseWords : List String :=
  ["de", "da", "do", "das", "dos", "e", "em", "com", "para", "por",
   "a", "o", "à", "ao", "no", "na", "um", "uma"]

/-- Python `word.capitalize()` on a character list: first character
uppercased, the rest lowercased (ASCII case mapping in the model). -/
def capList : List Char → List Char
  | [] => []
  | c :: cs => chUp c :: cs.map chDown

/-- Python `word.capitalize()`. -/
def pyCapitalize (s : String) : String :=
  String.mk (capList s.data)

/-- Cased lowercase letters of the model (ASCII plus accented plus the
ordinal indicators, which Unicode classes as lowercase letters). -/
def isLowerCased (c : Char) : Bool :=
  isAsciiLower c ||
    (['á', 'à', 'â', 'ã', 'ä', 'é', 'è', 'ê', 'ë', 'í', 'ì', 'î', 'ï',
      'ó', 'ò', 'ô', 'õ', 'ö', 'ú', 'ù', 'û', 'ü', 'ç', 'ñ', 'ª', 'º']).contains c

def isUpperCased (c : Char) : Bool :=
  isAsciiUpper c ||
    (['Á', 'À', 'Â', 'Ã', 'Ä', 'É', 'È', 'Ê', 'Ë', 'Í', 'Ì', 'Î', 'Ï',
      'Ó', 'Ò', 'Ô', 'Õ', 'Ö', 'Ú', 'Ù', 'Û', 'Ü', 'Ç', 'Ñ']).contains c

/-- Python `word.isupper()`: at least one cased character and no lowercase
cased character. -/
def pyIsUpperStr (s : String) : Bool :=
  s.data.any (fun c => isLowerCased c || isUpperCased c) &&
  s.data.all (fun c => !(isLowerCased c))

/-- The per-word rule of `UniversalNormalizer._smart_title_case` for words
after the first: keep short all-uppercase tokens, lowercase the stopwords,
otherwise capitalize. -/
def titleRest (w : String) : String :=
  if pyIsUpperStr w && w.length ≤ 5 then w
  else if lowercaseWords.contains (lowerStr w) then lowerStr w
  else pyCapitalize w

/-- Model of `UniversalNormalizer._smart_title_case`. -/
def smartTitleCase (text : String) : String :=
  if text == "" then text
  else match pySplit text with
    | [] => text
    | w :: ws => joinSpace (pyCapitalize w :: ws.map titleRest)

/-- Model of `UniversalNormalizer._extract_title_from_external_id` on a string
(the `not external_id` guard lives in `extractTitleE`). -/
def extractTitle (external_id : String) : String :=
  let c := external_id
  let c := if startsWithCL ("megaleiloes_").data c.data then String.mk (c.data.drop 12) else c
  let c := String.mk (stripJSuffix c.data)
  let c := String.mk (stripNum5Suffix c.data)
  let c := String.mk (c.data.map (fun ch => if ch == '-' || ch == '_' then ' ' else ch))
  let c := pyStrip (collapseWS c)
  let c := String.mk (c.data.filter (fun ch => isWordCh ch || isPyWS ch))
  let c := if 200 < c.length then String.mk (c.data.take 197) ++ "..." else c
  if c == "" then "Sem Título" else c

/-- Model of `UniversalNormalizer._extract_title_from_external_id` on a Python value:
falsy values return the sentinel, non-strings raise (`.startswith` on a
non-string is an `AttributeError`). -/
def extractTitleE (v : PyVal) : Except PyErr String :=
  if truthy v = false then .ok "Sem Título"
  else match v with
    | .str s => .ok (extractTitle s)
    | _ => .error .attributeError

/-- Model of `UniversalNormalizer._clean_title`. -/
def cleanTitle (title : PyVal) (removeAuctionInfo : Bool) : String :=
  if truthy title = false || pyStrip (pyStr title) == "" then "Sem Título"
  else
    let c := pyStrip (pyStr title)
    let c := String.mk (stripLote c.data)
    let c := reSub (noCtx tagMatch) c
    let c := replaceSub "&nbsp;" " " c
    let c := replaceSub "&amp;" "&" c
    let c := replaceSub "&lt;" "<" c
    let c := replaceSub "&gt;" ">" c
    let c := replaceSub "&quot;" "\"" c
    let c := if removeAuctionInfo then
        reSub (noCtx pracaShortMatch) (reSub (noCtx pracaFullMatch) c)
      else c
    let c := pyStrip (rstripComma c)
    let c := reSub (noCtx placaMatch) c
    let c := replaceSub "_" " " c
    let c := pyStrip (collapseWS c)
    let c := reSub zerosMatch c
    let c := reSub (noCtx currencyMatch) c
    let c := reSub tripletMatch c
    let c := pyStrip (collapseWS c)
    let c := if 200 < c.length then String.mk (c.data.take 197) ++ "..." else c
    if c == "" then "Sem Título" else c

/-- Join with a fixed separator (Python `sep.join`). -/
def joinWith (sep : String) : List String → String
  | [] => ""
  | [w] => w
  | w :: ws => w ++ sep ++ joinWith sep ws

/-- The final `return desc if desc else None` step of the description
cleaners. -/
def noneIfEmpty (d : String) : Option String :=
  if d == "" then Option.none else some d

/-- Model of `UniversalNormalizer._deep_clean_description`. -/
def deepCleanDescription (description : PyVal) (removeAuctionInfo : Bool) :
    Option String :=
  if truthy description = false then Option.none
  else
    let d := pyStrip (pyStr description)
    if d == "" || d.length < 5 then Option.none
    else
      let d := reSub (noCtx brMatch) d
      let d := reSub (noCtx pOpenMatch) d
      let d := reSub (noCtx pCloseMatch) d
      let d := reSub (noCtx tagMatch) d
      let d := replaceSub "&nbsp;" " " d
      let d := replaceSub "&amp;" "&" d
      let d := replaceSub "&lt;" "<" d
      let d := replaceSub "&gt;" ">" d
      let d := replaceSub "&quot;" "\"" d
      let d := reSub (noCtx numEntityMatch) d
      let d := if removeAuctionInfo then reSub (noCtx pracaFullMatch) d else d
      let d := reSub (noCtx newlines3Match) d
      let d := reSub (noCtx spaces2Match) d
      let d := joinWith "\n" (((splitCh '\n' d).map pyStrip).filter (fun ln => ln != ""))
      let d := reSub (noCtx exibindoMatch) d
      let d := reSub (noCtx urlMatch) d
      let d := reSub (noCtx emailMatch) d
      let d := reSub (noCtx phoneMatch) d
      let d := pyStrip (collapseWS d)
      let d := if 5000 < d.length then String.mk (d.data.take 4997) ++ "..." else d
      noneIfEmpty d

/-- The accent-folding table of `UniversalNormalizer._normalize_for_search`,
in source order. -/
def accentPairs : List (String × String) :=
  [("á", "a"), ("à", "a"), ("â", "a"), ("ã", "a"), ("ä", "a"),
   ("é", "e"), ("è", "e"), ("ê", "e"), ("ë", "e"),
   ("í", "i"), ("ì", "i"), ("î", "i"), ("ï", "i"),
   ("ó", "o"), ("ò", "o"), ("ô", "o"), ("õ", "o"), ("ö", "o"),
   ("ú", "u"), ("ù", "u"), ("û", "u"), ("ü", "u"),
   ("ç", "c"), ("ñ", "n")]

/-- Model of `UniversalNormalizer._normalize_for_search` (always called on the final
display title, a string). -/
def normalizeForSearch (title : String) : String :=
  if title == "" then ""
  else
    let n := lowerStr title
    let n := accentPairs.foldl (fun acc p => replaceSub p.1 p.2 acc) n
    let n := String.mk (n.data.map (fun c => if isWordCh c || isPyWS c then c else ' '))
    pyStrip (collapseWS n)

/-- Model of `UniversalNormalizer._create_preview` (called on the cleaned description
and the final display title). -/
def createPreview (description : Option String) (title : String) : String :=
  match description with
  | some s =>
    if s != "" && 10 < s.length then
      pyStrip (String.mk (s.data.take 150)) ++ (if 150 < s.length then "..." else "")
    else if title != "" then String.mk (title.data.take 150)
    else "Sem Descrição"
  | Option.none =>
    if title != "" then String.mk (title.data.take 150)
    else "Sem Descrição"

/-- Model of `UniversalNormalizer._parse_value`. -/
def parseValue (value : PyVal) : Option Rat :=
  match value with
  | .none => Option.none
  | v =>
    match pyFloat v with
    | Option.none => Option.none
    | some q => if q < 0 then Option.none else some (pyRound2 q)

/-- Model of `UniversalNormalizer._clean_city`. -/
def cleanCity (city : PyVal) : Option String :=
  if truthy city = false then Option.none
  else
    let c := pyStrip (pyStr city)
    if c == "" then Option.none
    else
      let c := if containsSub ['/'] c.data then pyStrip ((splitCh '/' c).headD "") else c
      let c := if containsSub ['-'] c.data then pyStrip ((splitCh '-' c).headD "") else c
      some (smartTitleCase c)

/-- Model of `UniversalNormalizer._validate_state`. -/
def validateState (state : PyVal) : Option String :=
  if truthy state = false then Option.none
  else
    let sc := upperStr (pyStrip (pyStr state))
    if validStates.contains sc then some sc else Option.none

/-- Model of `UniversalNormalizer._clean_address`. -/
def cleanAddress (address : PyVal) : Option String :=
  if truthy address = false then Option.none
  else
    let a := pyStrip (pyStr address)
    if a == "" || a.length < 3 then Option.none
    else
      let a := smartTitleCase a
      some (if 255 < a.length then String.mk (a.data.take 252) ++ "..." else a)

/-- Model of `UniversalNormalizer._parse_date`. -/
def parseDate (v : PyVal) : Option String :=
  if truthy v = false then Option.none
  else match v with
    | .str s => if containsSub ['T'] s.data then some s else Option.none
    | _ => Option.none

/-- Model of `UniversalNormalizer._parse_days_remaining`: negatives clamp to 0,
non-numeric to `None`. -/
def parseDaysRemaining (v : PyVal) : Option Int :=
  match v with
  | .none => Option.none
  | w =>
    match pyInt w with
    | some n => some (if n < 0 then 0 else n)
    | Option.none => Option.none

/-- Python `s.isdigit()` (ASCII model). -/
def isDigitStr (s : String) : Bool :=
  !s.data.isEmpty && s.data.all isDigitCh

/-- Model of `UniversalNormalizer._clean_text`. -/
def cleanText (text : PyVal) (dflt : Option String) : Option String :=
  if truthy text = false then dflt
  else
    let c := pyStrip (pyStr text)
    if c == "" then dflt
    else
      let c := if isDigitStr c then c else smartTitleCase c
      some (if 200 < c.length then String.mk (c.data.take 197) ++ "..." else c)

/-- Model of `UniversalNormalizer._parse_int`: no clamping of negatives. -/
def parseInt (v : PyVal) (dflt : Int) : Int :=
  match v with
  | .none => dflt
  | w =>
    match pyInt w with
    | some n => n
    | Option.none => dflt

/-- Python dict assignment `d[k] = v` on the entry-list model: update in
place if the key exists, else append. -/
def dictSet (xs : List (String × PyVal)) (k : String) (v : PyVal) :
    List (String × PyVal) :=
  if (xs.find? (fun p => p.1 == k)).isSome then
    xs.map (fun p => if p.1 == k then (k, v) else p)
  else xs ++ [(k, v)]

/-- The passthrough allow-list of `UniversalNormalizer._build_metadata`. -/
def extraFields : List String :=
  ["raw_category", "condition", "brand", "model", "year", "quantity", "unit_price"]

/-- Model of `UniversalNormalizer._build_metadata`. -/
def buildMetadata (item : List (String × PyVal)) : List (String × PyVal) :=
  let m := match lookupVal item "metadata" with
    | some (.dict xs) => xs
    | _ => []
  extraFields.foldl (fun acc f =>
    match lookupVal item f with
    | some PyVal.none => acc
    | some v => dictSet acc f v
    | Option.none => acc) m

def optStr : Option String → PyVal
  | some s => .str s
  | Option.none => .none

def optFloat : Option Rat → PyVal
  | some q => .float q
  | Option.none => .none

def optInt : Option Int → PyVal
  | some n => .int n
  | Option.none => .none

/-- The record literal returned by `UniversalNormalizer.normalize`, given the
pre-Title-Case title `ct0` chosen by the source branch. -/
def assembleFields (item : List (String × PyVal)) (ct0 : String) : List (String × PyVal) :=
  let clean_title := smartTitleCase ct0
  let clean_description := deepCleanDescription (lookupD item "description" (.str "")) true
  [("source", lookupD item "source" .none),
   ("external_id", lookupD item "external_id" .none),
   ("title", .str clean_title),
   ("normalized_title", .str (normalizeForSearch clean_title)),
   ("description", optStr clean_description),
   ("description_preview", .str (createPreview clean_description clean_title)),
   ("value", optFloat (parseValue (lookupD item "value" .none))),
   ("value_text", lookupD item "value_text" .none),
   ("auction_round", lookupD item "auction_round" .none),
   ("discount_percentage", lookupD item "discount_percentage" .none),
   ("first_round_value", optFloat (parseValue (lookupD item "first_round_value" .none))),
   ("first_round_date", lookupD item "first_round_date" .none),
   ("city", optStr (cleanCity (lookupD item "city" .none))),
   ("state", optStr (validateState (lookupD item "state" .none))),
   ("address", optStr (cleanAddress (lookupD item "address" .none))),
   ("auction_date", optStr (parseDate (lookupD item "auction_date" .none))),
   ("days_remaining", optInt (parseDaysRemaining (lookupD item "days_remaining" .none))),
   ("auction_type", optStr (cleanText (lookupD item "auction_type" .none) (some "Leilão"))),
   ("auction_name", optStr (cleanText (lookupD item "auction_name" .none) Option.none)),
   ("store_name", optStr (cleanText (lookupD item "store_name" .none) Option.none)),
   ("lot_number", optStr (cleanText (lookupD item "lot_number" .none) Option.none)),
   ("total_visits", .int (parseInt (lookupD item "total_visits" .none) 0)),
   ("total_bids", .int (parseInt (lookupD item "total_bids" .none) 0)),
   ("total_bidders", .int (parseInt (lookupD item "total_bidders" .none) 0)),
   ("link", lookupD item "link" .none),
   ("vehicle_type", lookupD item "vehicle_type" .none),
   ("property_type", lookupD item "property_type" .none),
   ("animal_type", lookupD item "animal_type" .none),
   ("metadata", .dict (buildMetadata item))]

/-- Model of `UniversalNormalizer.normalize` (the `assemble` operation of the spec).
The only two places where an exception can escape are modelled explicitly:
`item.get('source', '').lower()` on a non-string and
`_extract_title_from_external_id` on a truthy non-string `external_id`. -/
def UniversalNormalizer.normalize (item : List (String × PyVal)) :
    Except PyErr (List (String × PyVal)) :=
  match (match lookupD item "source" (.str "") with
         | .str s => Except.ok (lowerStr s)
         | _ => Except.error PyErr.attributeError) with
  | .error e => .error e
  | .ok source =>
    match (if source == "megaleiloes" && truthy (lookupD item "external_id" (.str "")) then
             extractTitleE (lookupD item "external_id" (.str ""))
           else .ok (cleanTitle (lookupD item "title" (.str "")) true)) with
    | .error e => .error e
    | .ok ct0 => .ok (assembleFields item ct0)

/-! ### `SupabaseSuperbid` (src/scrapers/supabase_client.py) -/

/-- Environment for the supabase client: the `datetime` builtins it calls. -/
structure SupEnv where
  /-- Model of `datetime.fromisoformat(s).isoformat()`; `Option.none` models a raised
  `ValueError`, which `safe_datetime` swallows. -/
  fromiso : String → Option String
  /-- Model of `datetime.now().isoformat()`. -/
  now : String

/-- The dot-notation `get` helper of `_prepare_item`: walk dict levels,
returning the default on a missing key, a `None` value or a non-dict level. -/
def getPathAux (dflt : PyVal) : List String → PyVal → PyVal
  | [], v => v
  | k :: ks, v =>
    match v with
    | .dict xs =>
      match lookupD xs k .none with
      | .none => dflt
      | v2 => getPathAux dflt ks v2
    | _ => dflt

def getPath (raw : PyVal) (path : String) (dflt : PyVal) : PyVal :=
  getPathAux dflt (splitCh '.' path) raw

/-- Model of `safe_int`: `None` and `''` to `None`, else `int(val)` with exceptions
swallowed. -/
def safeInt (v : PyVal) : Option Int :=
  match v with
  | .none => Option.none
  | .str "" => Option.none
  | w => pyInt w

/-- Model of `safe_float`. -/
def safeFloat (v : PyVal) : Option Rat :=
  match v with
  | .none => Option.none
  | .str "" => Option.none
  | w => pyFloat w

/-- Model of `safe_bool`: booleans pass through, anything else via
`str(val).lower() in ('true', '1', 'yes', 'sim')`. -/
def safeBool (v : PyVal) : Bool :=
  match v with
  | .none => false
  | .bool b => b
  | w => (["true", "1", "yes", "sim"]).contains (lowerStr (pyStr w))

/-- Model of `safe_str`: `None` and `''` to `None`, else `str(val)`. -/
def safeStr (v : PyVal) : Option String :=
  match v with
  | .none => Option.none
  | .str "" => Option.none
  | w => some (pyStr w)

/-- Model of `safe_datetime`. -/
def safeDatetime (env : SupEnv) (v : PyVal) : Option String :=
  if truthy v = false then Option.none
  else env.fromiso (replaceSub "Z" "+00:00" (pyStr v))

/-- Python iteration `for x in v`: lists yield elements, strings characters,
dicts keys; other values raise `TypeError`. -/
def pyIterE : PyVal → Except PyErr (List PyVal)
  | .list xs => .ok xs
  | .str s => .ok (s.data.map (fun c => PyVal.str (String.mk [c])))
  | .dict xs => .ok (xs.map (fun p => PyVal.str p.1))
  | _ => .error .typeError

/-- The vehicle characteristics collected from the product template. -/
structure VehicleProps where
  year_manufacture : Option Int := Option.none
  year_model : Option Int := Option.none
  plate : Option String := Option.none
  color : Option String := Option.none
  fuel : Option String := Option.none
  transmission : Option String := Option.none
  km : Option Int := Option.none
  vehicle_restrictions : Option String := Option.none
  vehicle_owner : Option String := Option.none
  vehicle_debts : Option String := Option.none

/-- The property-id dispatch of the template scan in `_prepare_item`. -/
def applyProp (vp : VehicleProps) (propId : String) (value : PyVal) : VehicleProps :=
  if propId == "anofabricacao" then { vp with year_manufacture := safeInt value }
  else if propId == "anomodelo" then { vp with year_model := safeInt value }
  else if propId == "placa" then { vp with plate := safeStr value }
  else if propId == "cor" then { vp with color := safeStr value }
  else if propId == "combustivel" then { vp with fuel := safeStr value }
  else if propId == "cambio" then { vp with transmission := safeStr value }
  else if propId == "km" || propId == "quilometragem" then { vp with km := safeInt value }
  else if propId == "restricoes" || propId == "restricao" then { vp with vehicle_restrictions := safeStr value }
  else if propId == "proprietario" || propId == "dono" then { vp with vehicle_owner := safeStr value }
  else if propId == "debitos" || propId == "dividas" then { vp with vehicle_debts := safeStr value }
  else vp

/-- The inner `for prop in group.get('properties', [])` loop. -/
def scanProps (vp : VehicleProps) : List PyVal → Except PyErr VehicleProps
  | [] => .ok vp
  | prop :: rest => do
    let pid ← pyGetD prop "id" (.str "")
    let value ← pyGetE prop "value"
    if truthy value = false then scanProps vp rest
    else scanProps (applyProp vp (lowerStr (pyStr pid)) value) rest

/-- The outer `for group in template.get('groups', [])` loop. -/
def scanGroups (vp : VehicleProps) : List PyVal → Except PyErr VehicleProps
  | [] => .ok vp
  | g :: rest => do
    let props ← pyGetD g "properties" (.list [])
    let propList ← pyIterE props
    let vp2 ← scanProps vp propList
    scanGroups vp2 rest

/-- Python `x or d` for an optional integer (`safe_int(...) or d`). -/
def orDefault (o : Option Int) (d : Int) : Int :=
  match o with
  | some n => if n == 0 then d else n
  | Option.none => d

/-- Truthiness of the `safe_int` result (`if not offer_id`). -/
def optIntTruthy (o : Option Int) : Bool :=
  match o with
  | some n => n != 0
  | Option.none => false

/-- Model of `SupabaseSuperbid._prepare_item`: `None` (`.ok Option.none`) for a record
without truthy `external_id` or without a usable `offer_id`; exceptions
propagate to the caller, which counts them. -/
def prepareItem (env : SupEnv) (item : PyVal) : Except PyErr (Option PyVal) :=
  match item with
  | .dict entries =>
    let external_id := lookupD entries "external_id" .none
    if truthy external_id = false then .ok Option.none
    else
      let raw := lookupD entries "raw_data" (.dict [])
      let g := fun (p : String) => getPath raw p .none
      let offer_id := safeInt (g "id")
      if optIntTruthy offer_id = false then .ok Option.none
      else
        let offerN := offer_id.getD 0
        let product_id := safeInt (g "product.productId")
        let auction_id := safeInt (g "auction.id")
        let lot_number := safeInt (g "lotNumber")
        let group_offer_id := safeInt (g "groupOffer.id")
        let category := safeStr (g "product.subCategory.category.description")
        let product_type_id := safeInt (g "product.productType.id")
        let product_type_desc := safeStr (g "product.productType.description")
        let sub_category_id := safeInt (g "product.subCategory.id")
        let sub_category_desc := safeStr (g "product.subCategory.description")
        let title0 := safeStr (getPath raw "product.shortDesc" (.str "Sem Título"))
        let title := match title0 with
          | some t => if t == "" then "Sem Título" else t
          | Option.none => "Sem Título"
        let description := safeStr (g "product.detailedDescription")
        let location_city := safeStr (g "product.location.city")
        let location_state := safeStr (g "product.location.state")
        let location_full := match location_city, location_state with
          | some c, some s => some (c ++ " - " ++ s)
          | _, _ => location_city
        let state := match location_state with
          | some s =>
            let ss := upperStr (pyStrip s)
            if ss.length == 2 then some ss else Option.none
          | Option.none => Option.none
        let location_lat := safeFloat (g "product.location.locationGeo.lat")
        let location_lon := safeFloat (g "product.location.locationGeo.lon")
        let auction_name := safeStr (g "auction.desc")
        let auction_status_id := safeInt (g "auction.statusId")
        let auction_modality := safeStr (g "auction.modalityDesc")
        let auction_begin_date := safeDatetime env (g "auction.beginDate")
        let auction_end_date := safeDatetime env (g "auction.endDate")
        let auction_max_enddate := safeDatetime env (g "auction.maxEnddateOffer")
        let auctioneer_name := safeStr (g "auction.auctioneer")
        let auctioneer_registry := safeStr (g "auction.registry")
        let auction_address := match g "auction.address" with
          | .dict xs => PyVal.dict xs
          | _ => PyVal.none
        let judicial_praca := safeInt (g "auction.judicialPraca")
        let judicial_praca_desc := safeStr (g "auction.judicialPracaDescription")
        let judicial_control_number := safeStr (g "auction.judicialControlNumber")
        let store_id := safeInt (g "store.id")
        let store_name := safeStr (g "store.name")
        let store_highlight := safeBool (g "store.highlight")
        let store_logo_url := safeStr (g "store.logoUri")
        let manager_id := safeInt (g "manager.id")
        let manager_name := safeStr (g "manager.name")
        let price := safeFloat (g "price")
        let price_formatted := safeStr (g "priceFormatted")
        let initial_bid_value := safeFloat (g "offerDetail.initialBidValue")
        let current_min_bid := safeFloat (g "offerDetail.currentMinBid")
        let current_max_bid := safeFloat (g "offerDetail.currentMaxBid")
        let reserved_price := safeFloat (g "offerDetail.reservedPrice")
        let bid_increment := safeFloat (g "currentBidIncrement.currentBidIncrement")
        let has_bids := safeBool (g "hasBids")
        let has_received := safeBool (g "hasReceivedBidsOrProposals")
        let total_bidders := orDefault (safeInt (g "totalBidders")) 0
        let total_bids := orDefault (safeInt (g "totalBids")) 0
        let total_received_proposals := orDefault (safeInt (g "totalReceivedProposals")) 0
        let current_winner_id := safeInt (g "winnerBid.userId")
        let current_winner_login := safeStr (g "winnerBid.userLogin")
        let brand := match g "product.brand" with
          | .dict xs => safeStr (lookupD xs "description" .none)
          | v => safeStr v
        let model := match g "product.model" with
          | .dict xs => safeStr (lookupD xs "description" .none)
          | v => safeStr v
        let template := getPath raw "product.template" (.dict [])
        let vpE : Except PyErr VehicleProps := match template with
          | .dict txs => (do
              let gl ← pyIterE (lookupD txs "groups" (.list []))
              scanGroups {} gl)
          | _ => .ok {}
        match vpE with
        | .error e => .error e
        | .ok vp =>
          let product_your_ref := safeStr (g "product.productYourRef")
          let image_url := safeStr (g "product.thumbnailUrl")
          let photo_count := orDefault (safeInt (g "product.photoCount")) 0
          let video_url_count := orDefault (safeInt (g "product.videoUrlCount")) 0
          let offer_status_id := safeInt (g "statusId")
          let offer_type_id := safeInt (g "offerTypeId")
          let status_code := safeInt (g "offerStatus.statusCode")
          let is_removed := safeBool (g "offerStatus.removed")
          let is_stabbed := safeBool (g "offerStatus.stabbed")
          let is_subjudice := safeBool (g "offerStatus.subjudice")
          let is_sold := safeBool (g "offerStatus.sold")
          let is_reserved := safeBool (g "offerStatus.reserved")
          let is_closed := safeBool (g "offerStatus.closed")
          let is_highlight := safeBool (g "store.highlight")
          let is_favorite := safeBool (g "isFavorite")
          let quantity_in_lot := orDefault (safeInt (g "quantityInLot")) 1
          let quantity_sold := orDefault (safeInt (g "quantitySold")) 0
          let quantity_reserved := orDefault (safeInt (g "quantityReserved")) 0
          let system_metric := safeStr (g "systemMetric")
          let visits := orDefault (safeInt (g "visits")) 0
          let seller_id := safeInt (g "seller.id")
          let seller_name := safeStr (g "seller.name")
          let seller_city := safeStr (g "seller.city")
          let seller_phone := match g "seller.phone" with
            | .dict xs => PyVal.dict xs
            | .list xs => PyVal.list xs
            | _ => PyVal.none
          let seller_company := match g "seller.company" with
            | .dict xs => PyVal.dict xs
            | _ => PyVal.none
          let commission_percent := safeFloat (g "groupOffer.commissionPercent")
          let allows_credit_card := safeBool (g "commercialCondition.allowsCreditCard")
          let allows_credit_card_total := safeBool (g "commercialCondition.allowCreditCardTotalValue")
          let transaction_limit := safeFloat (g "commercialCondition.transactionLimit")
          let max_installments := safeInt (g "commercialCondition.maxInstallments")
          let end_date := safeDatetime env (g "endDate")
          let end_date_time := safeInt (g "endDateTime")
          let create_at := safeDatetime env (g "createAt")
          let update_at := safeDatetime env (g "updateAt")
          let published_at := safeDatetime env (g "publishedAt")
          let indexation_date := safeDatetime env (g "indexationDate")
          let link0 := lookupD entries "link" .none
          let link := if truthy link0 then link0
            else .str ("https://exchange.superbid.net/oferta/" ++ toString offerN)
          let md0 : List (String × PyVal) :=
            [("category_display", lookupD entries "category_display" .none),
             ("scraped_at", lookupD entries "scraped_at" .none)]
          let md1 := if truthy (g "product.galleryJson") then
              md0 ++ [("gallery", g "product.galleryJson")] else md0
          let md2 := if truthy template then md1 ++ [("template", template)] else md1
          let md3 := if truthy (g "product.productCustomJson") then
              md2 ++ [("product_custom", g "product.productCustomJson")] else md2
          let md4 := if truthy (g "auction.subMarketplaces") then
              md3 ++ [("sub_marketplaces", g "auction.subMarketplaces")] else md3
          let md5 := if truthy (g "auction.eventPipeline") then
              md4 ++ [("event_pipeline", g "auction.eventPipeline")] else md4
          let md6 := if truthy (g "stores") then md5 ++ [("stores", g "stores")] else md5
          let md7 := if truthy (g "winnerBid") then md6 ++ [("winner_bid", g "winnerBid")] else md6
          .ok (some (.dict [
            ("external_id", external_id),
            ("offer_id", .int offerN),
            ("product_id", optInt product_id),
            ("lot_number", optInt lot_number),
            ("auction_id", optInt auction_id),
            ("group_offer_id", optInt group_offer_id),
            ("category", optStr category),
            ("product_type_id", optInt product_type_id),
            ("product_type_desc", optStr product_type_desc),
            ("sub_category_id", optInt sub_category_id),
            ("sub_category_desc", optStr sub_category_desc),
            ("title", .str title),
            ("description", optStr description),
            ("city", optStr location_city),
            ("state", optStr state),
            ("location_full", optStr location_full),
            ("location_lat", optFloat location_lat),
            ("location_lon", optFloat location_lon),
            ("auction_name", optStr auction_name),
            ("auction_status_id", optInt auction_status_id),
            ("auction_modality", optStr auction_modality),
            ("auction_begin_date", optStr auction_begin_date),
            ("auction_end_date", optStr auction_end_date),
            ("auction_max_enddate", optStr auction_max_enddate),
            ("auctioneer_name", optStr auctioneer_name),
            ("auctioneer_registry", optStr auctioneer_registry),
            ("auction_address", auction_address),
            ("judicial_praca", optInt judicial_praca),
            ("judicial_praca_desc", optStr judicial_praca_desc),
            ("judicial_control_number", optStr judicial_control_number),
            ("store_id", optInt store_id),
            ("store_name", optStr store_name),
            ("store_highlight", .bool store_highlight),
            ("store_logo_url", optStr store_logo_url),
            ("manager_id", optInt manager_id),
            ("manager_name", optStr manager_name),
            ("price", optFloat price),
            ("price_formatted", optStr price_formatted),
            ("initial_bid_value", optFloat initial_bid_value),
            ("current_min_bid", optFloat current_min_bid),
            ("current_max_bid", optFloat current_max_bid),
            ("reserved_price", optFloat reserved_price),
            ("bid_increment", optFloat bid_increment),
            ("has_bids", .bool has_bids),
            ("has_received_bids_or_proposals", .bool has_received),
            ("total_bidders", .int total_bidders),
            ("total_bids", .int total_bids),
            ("total_received_proposals", .int total_received_proposals),
            ("current_winner_id", optInt current_winner_id),
            ("current_winner_login", optStr current_winner_login),
            ("brand", optStr brand),
            ("model", optStr model),
            ("year_manufacture", optInt vp.year_manufacture),
            ("year_model", optInt vp.year_model),
            ("plate", optStr vp.plate),
            ("color", optStr vp.color),
            ("fuel", optStr vp.fuel),
            ("transmission", optStr vp.transmission),
            ("km", optInt vp.km),
            ("vehicle_restrictions", optStr vp.vehicle_restrictions),
            ("vehicle_owner", optStr vp.vehicle_owner),
            ("vehicle_debts", optStr vp.vehicle_debts),
            ("product_your_ref", optStr product_your_ref),
            ("image_url", optStr image_url),
            ("photo_count", .int photo_count),
            ("video_url_count", .int video_url_count),
            ("offer_status_id", optInt offer_status_id),
            ("offer_type_id", optInt offer_type_id),
            ("status_code", optInt status_code),
            ("is_removed", .bool is_removed),
            ("is_stabbed", .bool is_stabbed),
            ("is_subjudice", .bool is_subjudice),
            ("is_sold", .bool is_sold),
            ("is_reserved", .bool is_reserved),
            ("is_closed", .bool is_closed),
            ("is_highlight", .bool is_highlight),
            ("is_favorite", .bool is_favorite),
            ("quantity_in_lot", .int quantity_in_lot),
            ("quantity_sold", .int quantity_sold),
            ("quantity_reserved", .int quantity_reserved),
            ("system_metric", optStr system_metric),
            ("visits", .int visits),
            ("seller_id", optInt seller_id),
            ("seller_name", optStr seller_name),
            ("seller_city", optStr seller_city),
            ("seller_phone", seller_phone),
            ("seller_company", seller_company),
            ("commission_percent", optFloat commission_percent),
            ("allows_credit_card", .bool allows_credit_card),
            ("allows_credit_card_total", .bool allows_credit_card_total),
            ("transaction_limit", optFloat transaction_limit),
            ("max_installments", optInt max_installments),
            ("end_date", optStr end_date),
            ("end_date_time", optInt end_date_time),
            ("create_at", optStr create_at),
            ("update_at", optStr update_at),
            ("published_at", optStr published_at),
            ("indexation_date", optStr indexation_date),
            ("link", link),
            ("source", .str "superbid"),
            ("metadata", .dict md7),
            ("is_active", .bool true),
            ("has_bid", .bool has_bids),
            ("last_scraped_at", .str env.now)
          ]))
  | _ => .error .attributeError

/-- The preparation loop of `SupabaseSuperbid.upsert`: prepared records in
order, skipping `None` results, counting (and swallowing) exceptions. -/
def prepareBatch (env : SupEnv) : List PyVal → List PyVal × Nat
  | [] => ([], 0)
  | item :: rest =>
    let tail := prepareBatch env rest
    match prepareItem env item with
    | .ok (some r) => (r :: tail.1, tail.2)
    | .ok Option.none => tail
    | .error _ => (tail.1, tail.2 + 1)

/-! ### `SuperbidScraper._parse_offer` (src/scrapers/superbid/scraper.py) -/

/-- Environment for the scraper: the datetime and JSON builtins it calls. -/
structure ScrEnv where
  /-- Model of `datetime.strptime(s, '%Y-%m-%d %H:%M:%S').strftime('%Y-%m-%d %H:%M:%S-03')`;
  `Option.none` models a raised `ValueError`. -/
  strptime : String → Option String
  /-- Model of `json.loads(s)`; `Option.none` models a raised decode error. -/
  jsonLoads : String → Option PyVal

/-- Model of `SuperbidScraper._parse_datetime`: its internal `try` swallows both the
`ValueError` of a bad format and the `TypeError` of a non-string. -/
def parseDatetimeScr (env : ScrEnv) (v : PyVal) : Option String :=
  if truthy v = false then Option.none
  else match v with
    | .str s => env.strptime s
    | _ => Option.none

/-- Python `v.lower()` (raises `AttributeError` unless `v` is a string). -/
def pyLowerE : PyVal → Except PyErr String
  | .str s => .ok (lowerStr s)
  | _ => .error .attributeError

/-- Python `v < n` against an int (raises `TypeError` unless `v` is numeric). -/
def pyLtIntE (v : PyVal) (n : Int) : Except PyErr Bool :=
  match v with
  | .int m => .ok (decide (m < n))
  | .float q => .ok (decide (q < (n : Rat)))
  | .bool b => .ok (decide ((if b then (1 : Int) else 0) < n))
  | _ => .error .typeError

/-- The full-name-to-code state table of `_parse_offer`. -/
def stateMapList : List (String × String) :=
  [("Acre", "AC"), ("Alagoas", "AL"), ("Amapá", "AP"), ("Amazonas", "AM"),
   ("Bahia", "BA"), ("Ceará", "CE"), ("Distrito Federal", "DF"), ("Espírito Santo", "ES"),
   ("Goiás", "GO"), ("Maranhão", "MA"), ("Mato Grosso", "MT"), ("Mato Grosso do Sul", "MS"),
   ("Minas Gerais", "MG"), ("Pará", "PA"), ("Paraíba", "PB"), ("Paraná", "PR"),
   ("Pernambuco", "PE"), ("Piauí", "PI"), ("Rio de Janeiro", "RJ"), ("Rio Grande do Norte", "RN"),
   ("Rio Grande do Sul", "RS"), ("Rondônia", "RO"), ("Roraima", "RR"), ("Santa Catarina", "SC"),
   ("São Paulo", "SP"), ("Sergipe", "SE"), ("Tocantins", "TO")]

/-- The inner property scan of `_parse_offer` (only the two year fields are
assigned; a failing `int(value)` is swallowed by `pass`).  Unlike the
supabase variant, the property id is lowercased without `str()`, so a
non-string id raises. -/
def scanPropsScr (ym : Option Int × Option Int) :
    List PyVal → Except PyErr (Option Int × Option Int)
  | [] => .ok ym
  | prop :: rest => do
    let pid ← pyGetD prop "id" (.str "")
    let pidL ← pyLowerE pid
    let value ← pyGetE prop "value"
    let ym2 :=
      if pidL == "anofabricacao" && truthy value then
        match pyInt value with
        | some n => (some n, ym.2)
        | Option.none => ym
      else if pidL == "anomodelo" && truthy value then
        match pyInt value with
        | some n => (ym.1, some n)
        | Option.none => ym
      else ym
    scanPropsScr ym2 rest

/-- The outer group scan of `_parse_offer`. -/
def scanGroupsScr (ym : Option Int × Option Int) :
    List PyVal → Except PyErr (Option Int × Option Int)
  | [] => .ok ym
  | g :: rest => do
    let props ← pyGetD g "properties" (.list [])
    let pl ← pyIterE props
    let ym2 ← scanPropsScr ym pl
    scanGroupsScr ym2 rest

/-- The body of `SuperbidScraper._parse_offer` inside its `try`, as an
exception-propagating computation; `.ok Option.none` is an explicit
`return None`. -/
def parseOfferBody (env : ScrEnv) (offer : PyVal) (category display_name : String) :
    Except PyErr (Option PyVal) :=
  match pyGetE offer "id" with
  | .error e => .error e
  | .ok offer_id =>
    if truthy offer_id = false then .ok Option.none
    else do
      let external_id := "superbid_" ++ pyStr offer_id
      let product ← pyGetD offer "product" (.dict [])
      let product_id ← pyGetE product "productId"
      let shortDesc ← pyGetE product "shortDesc"
      let title ← (if truthy shortDesc then pure shortDesc
        else do
          let od ← pyGetD offer "offerDescription" (.dict [])
          pyGetD od "offerDescription" (.str "Sem título"))
      let description ← pyGetE product "detailedDescription"
      let sub_category ← pyGetD product "subCategory" (.dict [])
      let sub_category_id ← pyGetE sub_category "id"
      let sub_category_desc ← pyGetE sub_category "description"
      let _category_obj ← pyGetD sub_category "category" (.dict [])
      let product_type ← pyGetD product "productType" (.dict [])
      let product_type_id ← pyGetE product_type "id"
      let product_type_desc ← pyGetE product_type "description"
      let location ← pyGetD product "location" (.dict [])
      let location_full ← pyGetE location "city"
      let cs ← (if truthy location_full then
          match location_full with
          | .str lf =>
            if containsSub (" - ").data lf.data then
              let parts := splitSep " - " lf
              let city := pyStrip (parts.headD "")
              let state_raw := pyStrip (parts.getD 1 "")
              if state_raw.length == 2 then
                Except.ok (PyVal.str city, PyVal.str (upperStr state_raw))
              else Except.ok (PyVal.str city, PyVal.none)
            else Except.ok (PyVal.str (pyStrip lf), PyVal.none)
          | _ => Except.error PyErr.typeError
        else Except.ok (PyVal.none, PyVal.none))
      let city := cs.1
      let state1 ← (if truthy cs.2 = false then do
          let seller ← pyGetD offer "seller" (.dict [])
          let seller_city ← pyGetE seller "city"
          (if truthy seller_city then
            match seller_city with
            | .str sc =>
              if containsSub (" - ").data sc.data then
                let state_raw := pyStrip ((splitSep " - " sc).getLastD "")
                if state_raw.length == 2 then Except.ok (PyVal.str (upperStr state_raw))
                else Except.ok PyVal.none
              else Except.ok PyVal.none
            | _ => Except.error PyErr.typeError
          else Except.ok PyVal.none)
        else pure cs.2)
      let lstate ← pyGetE location "state"
      let state ← (if truthy state1 = false && truthy lstate then do
          let state_full ← pyGetD location "state" (.str "")
          match state_full with
          | .str sf =>
            pure (PyVal.str (((stateMapList.find? (fun p => p.1 == sf)).map (fun p => p.2)).getD sf))
          | .list _ => Except.error PyErr.typeError
          | .dict _ => Except.error PyErr.typeError
          | v => pure v
        else pure state1)
      let location_geo ← pyGetD location "locationGeo" (.dict [])
      let location_lat ← pyGetE location_geo "lat"
      let location_lon ← pyGetE location_geo "lon"
      let auction ← pyGetD offer "auction" (.dict [])
      let auction_id ← pyGetE auction "id"
      let auction_name ← pyGetE auction "desc"
      let auction_status_id ← pyGetE auction "statusId"
      let auction_modality ← pyGetE auction "modalityDesc"
      let abd ← pyGetE auction "beginDate"
      let auction_begin_date := parseDatetimeScr env abd
      let aed ← pyGetE auction "endDate"
      let auction_end_date := parseDatetimeScr env aed
      let amd ← pyGetE auction "maxEnddateOffer"
      let auction_max_enddate := parseDatetimeScr env amd
      let auctioneer_name ← pyGetE auction "auctioneer"
      let auctioneer_registry ← pyGetE auction "registry"
      let auction_address ← pyGetE auction "address"
      let judicial_praca ← pyGetE auction "judicialPraca"
      let judicial_praca_desc ← pyGetE auction "judicialPracaDescription"
      let judicial_control_number ← pyGetE auction "judicialControlNumber"
      let store ← pyGetD offer "store" (.dict [])
      let store_id ← pyGetE store "id"
      let store_name ← pyGetE store "name"
      let store_highlight ← pyGetE store "highlight"
      let store_logo_url ← pyGetE store "logoUri"
      let manager ← pyGetD offer "manager" (.dict [])
      let manager_id ← pyGetE manager "id"
      let manager_name ← pyGetE manager "name"
      let price ← pyGetE offer "price"
      let price_formatted ← pyGetE offer "priceFormatted"
      let offer_detail ← pyGetD offer "offerDetail" (.dict [])
      let initial_bid_value ← pyGetE offer_detail "initialBidValue"
      let current_min_bid ← pyGetE offer_detail "currentMinBid"
      let current_max_bid ← pyGetE offer_detail "currentMaxBid"
      let reserved_price ← pyGetE offer_detail "reservedPrice"
      let bid_increment_obj ← pyGetD offer "currentBidIncrement" (.dict [])
      let bid_increment ← pyGetE bid_increment_obj "currentBidIncrement"
      let has_bids ← pyGetD offer "hasBids" (.bool false)
      let has_received ← pyGetD offer "hasReceivedBidsOrProposals" (.bool false)
      let total_bidders ← pyGetD offer "totalBidders" (.int 0)
      let total_bids ← pyGetD offer "totalBids" (.int 0)
      let total_received_proposals ← pyGetD offer "totalReceivedProposals" (.int 0)
      let winner_bid ← pyGetD offer "winnerBid" (.dict [])
      let current_winner_id ← pyGetE winner_bid "currentWinner"
      let current_winner_login ← pyGetE winner_bid "currentWinnerLogin"
      let template ← pyGetD product "template" (.dict [])
      let groups ← pyGetD template "groups" (.list [])
      let gl ← pyIterE groups
      let ym ← scanGroupsScr (Option.none, Option.none) gl
      let pcj ← pyGetE product "productCustomJson"
      let vrvovd : PyVal × PyVal × PyVal :=
        (if truthy pcj then
          match pcj with
          | .str s =>
            match env.jsonLoads s with
            | some (.dict xs) =>
              (lookupD xs "vehicleRestrictions" .none,
               lookupD xs "vehicleOwner" .none,
               lookupD xs "vehicleDebts" .none)
            | _ => (.none, .none, .none)
          | _ => (.none, .none, .none)
        else (.none, .none, .none))
      let product_your_ref ← pyGetE product "productYourRef"
      let gallery ← pyGetD product "galleryJson" (.list [])
      let image_url ← (if truthy gallery then
          match gallery with
          | .list (x :: _) => pyGetE x "link"
          | .list [] => Except.ok PyVal.none
          | .str s =>
            (match s.data with
             | c :: _ => pyGetE (.str (String.mk [c])) "link"
             | [] => Except.ok PyVal.none)
          | _ => Except.error PyErr.typeError
        else Except.ok PyVal.none)
      let photo_count ← pyGetD product "photoCount" (.int 0)
      let video_url_count ← pyGetD product "videoUrlCount" (.int 0)
      let offer_status ← pyGetD offer "offerStatus" (.dict [])
      let status_code ← pyGetE offer_status "statusCode"
      let is_removed ← pyGetD offer_status "removed" (.bool false)
      let is_stabbed ← pyGetD offer_status "stabbed" (.bool false)
      let is_subjudice ← pyGetD offer_status "subjudice" (.bool false)
      let is_sold ← pyGetD offer_status "sold" (.bool false)
      let is_reserved ← pyGetD offer_status "reserved" (.bool false)
      let is_closed ← pyGetD offer_status "closed" (.bool false)
      let offer_status_id ← pyGetE offer "statusId"
      let offer_type_id ← pyGetE offer "offerTypeId"
      let group_offer ← pyGetD offer "groupOffer" (.dict [])
      let group_offer_id ← pyGetE group_offer "id"
      let quantity_in_lot ← pyGetD offer "quantityInLot" (.int 1)
      let quantity_sold ← pyGetD offer "quantitySold" (.int 0)
      let quantity_reserved ← pyGetD offer "quantityReserved" (.int 0)
      let system_metric ← pyGetE offer "systemMetric"
      let visits ← pyGetD offer "visits" (.int 0)
      let seller2 ← pyGetD offer "seller" (.dict [])
      let seller_id ← pyGetE seller2 "id"
      let seller_name ← pyGetE seller2 "name"
      let seller_city2 ← pyGetE seller2 "city"
      let seller_phone ← pyGetE seller2 "phone"
      let seller_company ← pyGetE seller2 "company"
      let commercial_condition ← pyGetD offer "commercialCondition" (.dict [])
      let commission_percent ← pyGetE commercial_condition "auctioneerCommissionPercent"
      let allows_credit_card ← pyGetD commercial_condition "allowsCreditCard" (.bool false)
      let allows_credit_card_total ← pyGetD commercial_condition "allowCreditCardTotalValue" (.bool false)
      let transaction_limit ← pyGetE commercial_condition "transactionLimit"
      let max_installments ← pyGetE commercial_condition "maxInstallments"
      let ed ← pyGetE offer "endDate"
      let end_date := parseDatetimeScr env ed
      let end_date_time ← pyGetE offer "endDateTime"
      let ca ← pyGetE offer "createAt"
      let create_at := parseDatetimeScr env ca
      let ua ← pyGetE offer "updateAt"
      let update_at := parseDatetimeScr env ua
      let pa ← pyGetE offer "publishedAt"
      let published_at := parseDatetimeScr env pa
      let ind ← pyGetE offer "indexationDate"
      let indexation_date := parseDatetimeScr env ind
      let link := "https://exchange.superbid.net/oferta/" ++ pyStr offer_id
      let lot_number ← pyGetE offer "lotNumber"
      let snl ← pyLowerE store_name
      if containsSub ("demo").data snl.data || containsSub ("test").data snl.data then
        pure Option.none
      else do
        let priceLt1 ← (if truthy price then pyLtIntE price 1 else pure false)
        if priceLt1 then pure Option.none
        else
          pure (some (.dict [
            ("external_id", .str external_id),
            ("offer_id", offer_id),
            ("product_id", product_id),
            ("lot_number", lot_number),
            ("auction_id", auction_id),
            ("group_offer_id", group_offer_id),
            ("category", .str category),
            ("product_type_id", product_type_id),
            ("product_type_desc", product_type_desc),
            ("sub_category_id", sub_category_id),
            ("sub_category_desc", sub_category_desc),
            ("title", title),
            ("description", description),
            ("city", city),
            ("state", state),
            ("location_full", location_full),
            ("location_lat", location_lat),
            ("location_lon", location_lon),
            ("auction_name", auction_name),
            ("auction_status_id", auction_status_id),
            ("auction_modality", auction_modality),
            ("auction_begin_date", optStr auction_begin_date),
            ("auction_end_date", optStr auction_end_date),
            ("auction_max_enddate", optStr auction_max_enddate),
            ("auctioneer_name", auctioneer_name),
            ("auctioneer_registry", auctioneer_registry),
            ("auction_address", auction_address),
            ("judicial_praca", judicial_praca),
            ("judicial_praca_desc", judicial_praca_desc),
            ("judicial_control_number", judicial_control_number),
            ("store_id", store_id),
            ("store_name", store_name),
            ("store_highlight", store_highlight),
            ("store_logo_url", store_logo_url),
            ("manager_id", manager_id),
            ("manager_name", manager_name),
            ("price", price),
            ("price_formatted", price_formatted),
            ("initial_bid_value", initial_bid_value),
            ("current_min_bid", current_min_bid),
            ("current_max_bid", current_max_bid),
            ("reserved_price", reserved_price),
            ("bid_increment", bid_increment),
            ("has_bids", has_bids),
            ("has_received_bids_or_proposals", has_received),
            ("total_bidders", total_bidders),
            ("total_bids", total_bids),
            ("total_received_proposals", total_received_proposals),
            ("current_winner_id", current_winner_id),
            ("current_winner_login", current_winner_login),
            ("brand", .none),
            ("model", .none),
            ("year_manufacture", optInt ym.1),
            ("year_model", optInt ym.2),
            ("plate", .none),
            ("color", .none),
            ("fuel", .none),
            ("transmission", .none),
            ("km", .none),
            ("vehicle_restrictions", vrvovd.1),
            ("vehicle_owner", vrvovd.2.1),
            ("vehicle_debts", vrvovd.2.2),
            ("product_your_ref", product_your_ref),
            ("image_url", image_url),
            ("photo_count", photo_count),
            ("video_url_count", video_url_count),
            ("offer_status_id", offer_status_id),
            ("offer_type_id", offer_type_id),
            ("status_code", status_code),
            ("is_removed", is_removed),
            ("is_stabbed", is_stabbed),
            ("is_subjudice", is_subjudice),
            ("is_sold", is_sold),
            ("is_reserved", is_reserved),
            ("is_closed", is_closed),
            ("is_highlight", .bool false),
            ("is_favorite", ← pyGetD offer "isFavorite" (.bool false)),
            ("quantity_in_lot", quantity_in_lot),
            ("quantity_sold", quantity_sold),
            ("quantity_reserved", quantity_reserved),
            ("system_metric", system_metric),
            ("visits", visits),
            ("seller_id", seller_id),
            ("seller_name", seller_name),
            ("seller_city", seller_city2),
            ("seller_phone", seller_phone),
            ("seller_company", seller_company),
            ("commission_percent", commission_percent),
            ("allows_credit_card", allows_credit_card),
            ("allows_credit_card_total", allows_credit_card_total),
            ("transaction_limit", transaction_limit),
            ("max_installments", max_installments),
            ("end_date", optStr end_date),
            ("end_date_time", end_date_time),
            ("create_at", optStr create_at),
            ("update_at", optStr update_at),
            ("published_at", optStr published_at),
            ("indexation_date", optStr indexation_date),
            ("link", .str link),
            ("source", .str "superbid"),
            ("metadata", .dict [("secao_site", .str display_name)]),
            ("is_active", .bool true),
            ("has_bid", has_bids)
          ]))

/-- Model of `SuperbidScraper._parse_offer`: the surrounding
`try ... except Exception: return None` makes the whole parse total. -/
def parseOffer (env : ScrEnv) (offer : PyVal) (category display_name : String) :
    Option PyVal :=
  match parseOfferBody env offer category display_name with
  | .ok r => r
  | .error _ => Option.none

/-! ### Concrete inputs and projections used by the claim theorems -/

/-- A trivial supabase environment for witnesses (its functions are never
invoked on the witness inputs). -/
def stubSupEnv : SupEnv := ⟨fun _ => Option.none, ""⟩

/-- A trivial scraper environment for witnesses. -/
def stubScrEnv : ScrEnv := ⟨fun _ => Option.none, fun _ => Option.none⟩

/-- The string value of a field of a normalized record, if the run succeeded
and the field holds a string. -/
def fieldStrOf (r : Except PyErr (List (String × PyVal))) (k : String) : Option String :=
  match r with
  | .ok xs =>
    match lookupVal xs k with
    | some (.str s) => some s
    | _ => Option.none
  | .error _ => Option.none

/-- The integer value of a field of a normalized record. -/
def fieldIntOf (r : Except PyErr (List (String × PyVal))) (k : String) : Option Int :=
  match r with
  | .ok xs =>
    match lookupVal xs k with
    | some (.int n) => some n
    | _ => Option.none
  | .error _ => Option.none

/-- The length of the string value of a field of a normalized record. -/
def fieldLenOf (r : Except PyErr (List (String × PyVal))) (k : String) : Option Nat :=
  (fieldStrOf r k).map String.length

/-- The MegaLeilões listing of the spec's title-extraction example. -/
def itemMega : List (String × PyVal) :=
  [("source", .str "megaleiloes"),
   ("external_id", .str "megaleiloes_sofa-em-estrutura-macica-tecido-de-veludo-j119233")]

/-- A listing whose description decodes to text containing a literal HTML
entity, so that one more cleaning pass changes it again. -/
def itemEntity : List (String × PyVal) :=
  [("description", .str "&amp;amp; hello")]

/-- A listing with a 160-character description (no cleanup applies). -/
def itemLongDesc : List (String × PyVal) :=
  [("description", .str (String.mk (List.replicate 160 'a')))]

/-- A listing with a negative visit counter. -/
def itemNegVisits : List (String × PyVal) :=
  [("total_visits", .int (-5))]

/-- An offer whose store object has no name: the demo/test-store check calls
`.lower()` on `None`. -/
def noNameStoreOffer : PyVal := .dict [("id", .int 10), ("store", .dict [])]

/-- An offer with a positive price below 1. -/
def lowPriceOffer : PyVal :=
  .dict [("id", .int 11), ("store", .dict [("name", .str "Loja X")]),
         ("price", .float (mkRat 1 2))]
/-! ### Character-level lemmas -/

theorem toNat_ofNat_valid (n : Nat) (h : n.isValidChar) : (Char.ofNat n).toNat = n := by
  rw [Char.ofNat, dif_pos h]
  simp [Char.ofNatAux, Char.toNat, UInt32.toNat, BitVec.toNat_ofNatLt]

theorem chUp_toNat_of (c : Char) (h : 97 ≤ c.toNat ∧ c.toNat ≤ 122) :
    (chUp c).toNat = c.toNat - 32 := by
  rw [chUp, if_pos h]
  apply toNat_ofNat_valid
  left
  omega

theorem chUp_eq_of_not (c : Char) (h : ¬ (97 ≤ c.toNat ∧ c.toNat ≤ 122)) : chUp c = c := by
  rw [chUp, if_neg h]

theorem chDown_toNat_of (c : Char) (h : 65 ≤ c.toNat ∧ c.toNat ≤ 90) :
    (chDown c).toNat = c.toNat + 32 := by
  rw [chDown, if_pos h]
  apply toNat_ofNat_valid
  left
  omega

theorem chDown_eq_of_not (c : Char) (h : ¬ (65 ≤ c.toNat ∧ c.toNat ≤ 90)) : chDown c = c := by
  rw [chDown, if_neg h]

theorem chUp_chUp (c : Char) : chUp (chUp c) = chUp c := by
  by_cases h : 97 ≤ c.toNat ∧ c.toNat ≤ 122
  · have h2 := chUp_toNat_of c h
    apply chUp_eq_of_not
    omega
  · rw [chUp_eq_of_not c h]
    exact chUp_eq_of_not c h

theorem chDown_chDown (c : Char) : chDown (chDown c) = chDown c := by
  by_cases h : 65 ≤ c.toNat ∧ c.toNat ≤ 90
  · have h2 := chDown_toNat_of c h
    apply chDown_eq_of_not
    omega
  · rw [chDown_eq_of_not c h]
    exact chDown_eq_of_not c h

theorem chDown_chUp (c : Char) : chDown (chUp c) = chDown c := by
  by_cases h : 97 ≤ c.toNat ∧ c.toNat ≤ 122
  · have h2 := chUp_toNat_of c h
    have h3 : chDown (chUp c) = Char.ofNat ((chUp c).toNat + 32) := by
      rw [chDown, if_pos]
      omega
    have h4 : chDown c = c := by
      apply chDown_eq_of_not
      omega
    rw [h3, h4, h2]
    have h5 : c.toNat - 32 + 32 = c.toNat := by omega
    rw [h5, Char.ofNat_toNat]
  · rw [chUp_eq_of_not c h]

theorem char_eq_iff_toNat (c d : Char) : c = d ↔ c.toNat = d.toNat := by
  constructor
  · intro h
    rw [h]
  · intro h
    apply Char.ext
    exact UInt32.toNat.inj h

theorem isPyWS_iff (c : Char) :
    isPyWS c = true ↔
      (c.toNat = 32 ∨ c.toNat = 9 ∨ c.toNat = 10 ∨ c.toNat = 13 ∨
       c.toNat = 11 ∨ c.toNat = 12) := by
  simp only [isPyWS, Bool.or_eq_true, beq_iff_eq]
  rw [char_eq_iff_toNat, char_eq_iff_toNat, char_eq_iff_toNat, char_eq_iff_toNat,
      char_eq_iff_toNat, char_eq_iff_toNat]
  have h1 : (' ').toNat = 32 := by decide
  have h2 : ('\t').toNat = 9 := by decide
  have h3 : ('\n').toNat = 10 := by decide
  have h4 : ('\r').toNat = 13 := by decide
  have h5 : ('\x0b').toNat = 11 := by decide
  have h6 : ('\x0c').toNat = 12 := by decide
  rw [h1, h2, h3, h4, h5, h6]
  tauto

theorem isPyWS_chUp (c : Char) : isPyWS (chUp c) = isPyWS c := by
  by_cases h : 97 ≤ c.toNat ∧ c.toNat ≤ 122
  · have h2 := chUp_toNat_of c h
    have hA : ¬ isPyWS (chUp c) = true := by
      rw [isPyWS_iff]
      omega
    have hB : ¬ isPyWS c = true := by
      rw [isPyWS_iff]
      omega
    simp only [Bool.not_eq_true] at hA hB
    rw [hA, hB]
  · rw [chUp_eq_of_not c h]

theorem isPyWS_chDown (c : Char) : isPyWS (chDown c) = isPyWS c := by
  by_cases h : 65 ≤ c.toNat ∧ c.toNat ≤ 90
  · have h2 := chDown_toNat_of c h
    have hA : ¬ isPyWS (chDown c) = true := by
      rw [isPyWS_iff]
      omega
    have hB : ¬ isPyWS c = true := by
      rw [isPyWS_iff]
      omega
    simp only [Bool.not_eq_true] at hA hB
    rw [hA, hB]
  · rw [chDown_eq_of_not c h]

/-! ### Word-level lemmas for Title Case -/

theorem map_comp_ptwise {f g h : Char → Char} (hfg : ∀ c, f (g c) = h c) :
    ∀ l : List Char, (l.map g).map f = l.map h := by
  intro l
  induction l with
  | nil => rfl
  | cons c cs ih => simp only [List.map_cons, hfg, ih]

theorem capList_capList (l : List Char) : capList (capList l) = capList l := by
  cases l with
  | nil => rfl
  | cons c cs =>
    simp only [capList, chUp_chUp, List.cons.injEq, true_and]
    exact map_comp_ptwise chDown_chDown cs

theorem map_chDown_capList (l : List Char) : (capList l).map chDown = l.map chDown := by
  cases l with
  | nil => rfl
  | cons c cs =>
    simp only [capList, List.map_cons, chDown_chUp, List.cons.injEq, true_and]
    exact map_comp_ptwise chDown_chDown cs

theorem lowerStr_lowerStr (s : String) : lowerStr (lowerStr s) = lowerStr s :=
  congrArg String.mk (map_comp_ptwise chDown_chDown s.data)

theorem lowerStr_pyCapitalize (s : String) : lowerStr (pyCapitalize s) = lowerStr s :=
  congrArg String.mk (map_chDown_capList s.data)

theorem pyCapitalize_pyCapitalize (s : String) :
    pyCapitalize (pyCapitalize s) = pyCapitalize s :=
  congrArg String.mk (capList_capList s.data)

theorem titleRest_titleRest (w : String) : titleRest (titleRest w) = titleRest w := by
  unfold titleRest
  by_cases h1 : (pyIsUpperStr w && w.length ≤ 5) = true
  · rw [if_pos h1, if_pos h1]
  · rw [if_neg h1]
    by_cases h2 : lowercaseWords.contains (lowerStr w) = true
    · rw [if_pos h2]
      by_cases h3 : (pyIsUpperStr (lowerStr w) && (lowerStr w).length ≤ 5) = true
      · rw [if_pos h3]
      · rw [if_neg h3, lowerStr_lowerStr, if_pos h2]
    · rw [if_neg h2]
      by_cases h3 : (pyIsUpperStr (pyCapitalize w) && (pyCapitalize w).length ≤ 5) = true
      · rw [if_pos h3]
      · rw [if_neg h3, lowerStr_pyCapitalize]
        rw [if_neg h2, pyCapitalize_pyCapitalize]

/-! ### Split/join lemmas -/

theorem string_eq_iff_data (s t : String) : s = t ↔ s.data = t.data :=
  ⟨fun h => h ▸ rfl, fun h => by cases s; cases t; exact congrArg String.mk (by simpa using h)⟩

theorem splitWSAux_sound (l : List Char) : ∀ acc : List Char,
    (∀ c ∈ acc, isPyWS c = false) →
    ∀ w ∈ splitWSAux acc l, w.data ≠ [] ∧ ∀ c ∈ w.data, isPyWS c = false := by
  induction l with
  | nil =>
    intro acc hacc w hw
    simp only [splitWSAux] at hw
    by_cases h : acc.isEmpty
    · rw [if_pos h] at hw
      simp at hw
    · rw [if_neg h] at hw
      simp only [List.mem_singleton] at hw
      subst hw
      constructor
      · simp only [List.isEmpty_iff] at h
        simpa using fun hrev => h (by simpa using congrArg List.reverse hrev)
      · intro c hc
        exact hacc c (by simpa using hc)
  | cons c cs ih =>
    intro acc hacc w hw
    simp only [splitWSAux] at hw
    by_cases hws : isPyWS c
    · rw [if_pos hws] at hw
      by_cases hemp : acc.isEmpty
      · rw [if_pos hemp] at hw
        exact ih [] (by simp) w hw
      · rw [if_neg hemp] at hw
        rcases List.mem_cons.mp hw with h1 | h1
        · subst h1
          constructor
          · simp only [List.isEmpty_iff] at hemp
            simpa using fun hrev => hemp (by simpa using congrArg List.reverse hrev)
          · intro x hx
            exact hacc x (by simpa using hx)
        · exact ih [] (by simp) w h1
    · rw [if_neg hws] at hw
      refine ih (c :: acc) ?_ w hw
      intro x hx
      rcases List.mem_cons.mp hx with h1 | h1
      · subst h1
        simpa using hws
      · exact hacc x h1

theorem splitWSAux_liftAcc (w : List Char) : ∀ (acc rest : List Char),
    (∀ c ∈ w, isPyWS c = false) →
    splitWSAux acc (w ++ rest) = splitWSAux (w.reverse ++ acc) rest := by
  induction w with
  | nil => intro acc rest _; simp
  | cons c cs ih =>
    intro acc rest h
    have hc : isPyWS c = false := h c (by simp)
    have e1 : splitWSAux acc ((c :: cs) ++ rest) =
        if isPyWS c then
          (if acc.isEmpty then splitWSAux [] (cs ++ rest)
           else String.mk acc.reverse :: splitWSAux [] (cs ++ rest))
        else splitWSAux (c :: acc) (cs ++ rest) := rfl
    rw [e1, if_neg (by simp [hc]), ih (c :: acc) rest (fun x hx => h x (by simp [hx]))]
    simp

theorem pySplit_joinSpace (ws : List String) :
    (∀ w ∈ ws, w.data ≠ [] ∧ ∀ c ∈ w.data, isPyWS c = false) →
    pySplit (joinSpace ws) = ws := by
  induction ws with
  | nil => intro _; rfl
  | cons w ws ih =>
    intro h
    have hw := h w (by simp)
    have hwne : ¬ (w.data.reverse).isEmpty = true := by
      simp only [List.isEmpty_iff, List.reverse_eq_nil_iff]
      exact hw.1
    match ws with
    | [] =>
      show splitWSAux [] ((joinSpace [w]).data) = [w]
      have hj : joinSpace [w] = w := rfl
      rw [hj]
      have h2 : splitWSAux [] (w.data ++ []) = splitWSAux (w.data.reverse ++ []) [] :=
        splitWSAux_liftAcc w.data [] [] hw.2
      rw [List.append_nil] at h2
      rw [List.append_nil] at h2
      rw [h2]
      have e1 : splitWSAux w.data.reverse ([] : List Char) =
          if (w.data.reverse).isEmpty then [] else [String.mk w.data.reverse.reverse] := rfl
      rw [e1, if_neg hwne, List.reverse_reverse]
    | w2 :: ws2 =>
      have hjoin : joinSpace (w :: w2 :: ws2) = w ++ " " ++ joinSpace (w2 :: ws2) := rfl
      show splitWSAux [] ((joinSpace (w :: w2 :: ws2)).data) = w :: w2 :: ws2
      rw [hjoin]
      have hdata : (w ++ " " ++ joinSpace (w2 :: ws2)).data
          = w.data ++ (' ' :: (joinSpace (w2 :: ws2)).data) := by
        rw [String.data_append, String.data_append,
            show (" " : String).data = [' '] from rfl, List.append_assoc]
        rfl
      rw [hdata]
      rw [splitWSAux_liftAcc w.data [] _ hw.2]
      rw [List.append_nil]
      have e1 : splitWSAux w.data.reverse (' ' :: (joinSpace (w2 :: ws2)).data) =
          if isPyWS ' ' then
            (if (w.data.reverse).isEmpty then splitWSAux [] ((joinSpace (w2 :: ws2)).data)
             else String.mk w.data.reverse.reverse
               :: splitWSAux [] ((joinSpace (w2 :: ws2)).data))
          else splitWSAux (' ' :: w.data.reverse) ((joinSpace (w2 :: ws2)).data) := rfl
      rw [e1, if_pos (by decide), if_neg hwne, List.reverse_reverse]
      have hmk : String.mk w.data = w := rfl
      rw [hmk]
      exact congrArg (w :: .) (ih (fun x hx => h x (by simp [hx])))

/-! ### Non-emptiness and whitespace-freeness preservation -/

theorem capList_ne_nil (l : List Char) (h : l ≠ []) : capList l ≠ [] := by
  cases l with
  | nil => exact absurd rfl h
  | cons c cs => simp [capList]

theorem capList_noWS (l : List Char) (h : ∀ c ∈ l, isPyWS c = false) :
    ∀ c ∈ capList l, isPyWS c = false := by
  cases l with
  | nil => simp [capList]
  | cons c cs =>
    intro x hx
    simp only [capList, List.mem_cons] at hx
    rcases hx with h1 | h1
    · subst h1
      rw [isPyWS_chUp]
      exact h c (by simp)
    · rcases List.mem_map.mp h1 with ⟨y, hy, rfl⟩
      rw [isPyWS_chDown]
      exact h y (by simp [hy])

theorem map_chDown_noWS (l : List Char) (h : ∀ c ∈ l, isPyWS c = false) :
    ∀ c ∈ l.map chDown, isPyWS c = false := by
  intro x hx
  rcases List.mem_map.mp hx with ⟨y, hy, rfl⟩
  rw [isPyWS_chDown]
  exact h y hy

theorem titleRest_sound (w : String) (hne : w.data ≠ [])
    (hws : ∀ c ∈ w.data, isPyWS c = false) :
    (titleRest w).data ≠ [] ∧ ∀ c ∈ (titleRest w).data, isPyWS c = false := by
  unfold titleRest
  by_cases h1 : (pyIsUpperStr w && w.length ≤ 5) = true
  · rw [if_pos h1]
    exact ⟨hne, hws⟩
  · rw [if_neg h1]
    by_cases h2 : lowercaseWords.contains (lowerStr w) = true
    · rw [if_pos h2]
      refine ⟨?_, map_chDown_noWS w.data hws⟩
      simpa [lowerStr] using hne
    · rw [if_neg h2]
      exact ⟨capList_ne_nil w.data hne, capList_noWS w.data hws⟩

/-! ### Idempotence of `smartTitleCase` -/

theorem joinSpace_ne_empty (w : String) (ws : List String) (h : w.data ≠ []) :
    (joinSpace (w :: ws)).data ≠ [] := by
  match ws with
  | [] => exact h
  | w2 :: ws2 =>
    have : joinSpace (w :: w2 :: ws2) = w ++ " " ++ joinSpace (w2 :: ws2) := rfl
    rw [this, String.data_append, String.data_append]
    intro hcontra
    exact h (List.append_eq_nil.mp (List.append_eq_nil.mp hcontra).1).1

theorem smartTitleCase_idem (s : String) :
    smartTitleCase (smartTitleCase s) = smartTitleCase s := by
  by_cases hs : (s == "") = true
  · have h1 : smartTitleCase s = s := by
      unfold smartTitleCase
      rw [if_pos hs]
    rw [h1, h1]
  · match hsplit : pySplit s with
    | [] =>
      have h1 : smartTitleCase s = s := by
        unfold smartTitleCase
        rw [if_neg hs, hsplit]
      rw [h1, h1]
    | w :: ws =>
      have h1 : smartTitleCase s = joinSpace (pyCapitalize w :: ws.map titleRest) := by
        unfold smartTitleCase
        rw [if_neg hs, hsplit]
      have hsound := splitWSAux_sound s.data [] (by simp)
      have hwordw : w.data ≠ [] ∧ ∀ c ∈ w.data, isPyWS c = false := by
        apply hsound
        rw [show splitWSAux [] s.data = pySplit s from rfl, hsplit]
        simp
      have hwords : ∀ x ∈ ws, x.data ≠ [] ∧ ∀ c ∈ x.data, isPyWS c = false := by
        intro x hx
        apply hsound
        rw [show splitWSAux [] s.data = pySplit s from rfl, hsplit]
        simp [hx]
      have hcapw : (pyCapitalize w).data ≠ [] ∧
          ∀ c ∈ (pyCapitalize w).data, isPyWS c = false :=
        ⟨capList_ne_nil w.data hwordw.1, capList_noWS w.data hwordw.2⟩
      have htne : (joinSpace (pyCapitalize w :: ws.map titleRest)).data ≠ [] :=
        joinSpace_ne_empty _ _ hcapw.1
      have htne2 : ¬ ((joinSpace (pyCapitalize w :: ws.map titleRest)) == "") = true := by
        simp only [beq_iff_eq]
        intro hcontra
        rw [hcontra] at htne
        exact htne rfl
      have hresplit : pySplit (joinSpace (pyCapitalize w :: ws.map titleRest))
          = pyCapitalize w :: ws.map titleRest := by
        apply pySplit_joinSpace
        intro x hx
        rcases List.mem_cons.mp hx with hx1 | hx1
        · subst hx1
          exact hcapw
        · rcases List.mem_map.mp hx1 with ⟨y, hy, rfl⟩
          exact titleRest_sound y (hwords y hy).1 (hwords y hy).2
      have h2 : smartTitleCase (joinSpace (pyCapitalize w :: ws.map titleRest))
          = joinSpace (pyCapitalize (pyCapitalize w)
              :: (ws.map titleRest).map titleRest) := by
        unfold smartTitleCase
        rw [if_neg htne2, hresplit]
      rw [h1, h2, pyCapitalize_pyCapitalize]
      have hfuse : (ws.map titleRest).map titleRest = ws.map titleRest := by
        rw [List.map_map]
        apply List.map_congr_left
        intro a _
        exact titleRest_titleRest a
      rw [hfuse]

/-! ### Non-emptiness of the title pipeline -/

theorem ite_sent_ne_empty (c : String) : (if c == "" then "Sem Título" else c) ≠ "" := by
  by_cases h : (c == "") = true
  · rw [if_pos h]
    decide
  · rw [if_neg h]
    simpa using h

theorem extractTitle_ne_empty (s : String) : extractTitle s ≠ "" := by
  unfold extractTitle
  exact ite_sent_ne_empty _

theorem cleanTitle_ne_empty (t : PyVal) (b : Bool) : cleanTitle t b ≠ "" := by
  unfold cleanTitle
  split
  · decide
  · exact ite_sent_ne_empty _

theorem smartTitleCase_ne_empty (s : String) (h : s ≠ "") : smartTitleCase s ≠ "" := by
  by_cases hs : (s == "") = true
  · simp only [beq_iff_eq] at hs
    exact absurd hs h
  · match hsplit : pySplit s with
    | [] =>
      have h1 : smartTitleCase s = s := by
        unfold smartTitleCase
        rw [if_neg hs, hsplit]
      rw [h1]
      exact h
    | w :: ws =>
      have h1 : smartTitleCase s = joinSpace (pyCapitalize w :: ws.map titleRest) := by
        unfold smartTitleCase
        rw [if_neg hs, hsplit]
      have hsound := splitWSAux_sound s.data [] (by simp)
      have hwordw : w.data ≠ [] ∧ ∀ c ∈ w.data, isPyWS c = false := by
        apply hsound
        rw [show splitWSAux [] s.data = pySplit s from rfl, hsplit]
        simp
      have hne : (joinSpace (pyCapitalize w :: ws.map titleRest)).data ≠ [] :=
        joinSpace_ne_empty _ _ (capList_ne_nil w.data hwordw.1)
      rw [h1]
      intro hcontra
      rw [hcontra] at hne
      exact hne rfl

/-! ### Rounding and value lemmas -/

theorem ratFloor_eq_floor (q : Rat) : q.floor = ⌊q⌋ := rfl

theorem mkRat_half_eq (f : Int) : (mkRat (2 * f + 1) 2 : Rat) = (f : Rat) + 1/2 := by
  rw [Rat.mkRat_eq_divInt, Rat.divInt_eq_div]
  push_cast
  ring

set_option linter.unusedTactic false in
theorem roundHalfEven_bounds (x : Rat) :
    |((roundHalfEven x : Int) : Rat) - x| ≤ 1/2 := by
  unfold roundHalfEven
  simp only [mkRat_half_eq, ratFloor_eq_floor]
  have hfl : ((⌊x⌋ : Int) : Rat) ≤ x := Int.floor_le x
  have hfu : x < ((⌊x⌋ : Int) : Rat) + 1 := Int.lt_floor_add_one x
  split_ifs with h1 h2 h3
  · rw [abs_le]
    constructor <;> push_cast <;> linarith
  · rw [abs_le]
    constructor <;> push_cast <;> linarith
  · have hx : x = ((⌊x⌋ : Int) : Rat) + 1/2 := le_antisymm (le_of_not_lt h2) (le_of_not_lt h1)
    rw [abs_le]
    constructor <;> push_cast <;> linarith
  · have hx : x = ((⌊x⌋ : Int) : Rat) + 1/2 := le_antisymm (le_of_not_lt h2) (le_of_not_lt h1)
    rw [abs_le]
    constructor <;> push_cast <;> linarith

theorem roundHalfEven_nonneg (x : Rat) (hx : 0 ≤ x) : 0 ≤ roundHalfEven x := by
  simp only [roundHalfEven]
  have h0 : 0 ≤ x.floor := by
    rw [ratFloor_eq_floor]
    exact Int.floor_nonneg.mpr hx
  split_ifs <;> omega

theorem mkRat_mul100 (q : Rat) : mkRat (q.num * 100) q.den = q * 100 := by
  rw [Rat.mkRat_eq_divInt, Rat.divInt_eq_div]
  push_cast
  rw [mul_div_right_comm, Rat.num_div_den]

theorem pyRound2_eq (q : Rat) :
    pyRound2 q = ((roundHalfEven (q * 100) : Int) : Rat) / 100 := by
  unfold pyRound2
  rw [mkRat_mul100, Rat.mkRat_eq_divInt, Rat.divInt_eq_div]
  push_cast
  ring

theorem pyRound2_nonneg (q : Rat) (h : 0 ≤ q) : 0 ≤ pyRound2 q := by
  rw [pyRound2_eq]
  have h2 := roundHalfEven_nonneg (q * 100) (by positivity)
  positivity

theorem pyRound2_two_decimals (q : Rat) : (pyRound2 q * 100).den = 1 := by
  rw [pyRound2_eq]
  have h : ((roundHalfEven (q * 100) : Int) : Rat) / 100 * 100
      = ((roundHalfEven (q * 100) : Int) : Rat) := by
    field_simp
  rw [h, Rat.den_intCast]

theorem pyRound2_close (q : Rat) : |pyRound2 q - q| ≤ 1 / 200 := by
  rw [pyRound2_eq]
  have hb := roundHalfEven_bounds (q * 100)
  rw [show ((roundHalfEven (q * 100) : Int) : Rat) / 100 - q
      = (((roundHalfEven (q * 100) : Int) : Rat) - q * 100) / 100 by ring]
  rw [abs_div, abs_of_pos (by norm_num : (0 : Rat) < 100)]
  linarith

theorem parseValue_eq (v : PyVal) :
    parseValue v = match pyFloat v with
      | Option.none => Option.none
      | some q => if q < 0 then Option.none else some (pyRound2 q) := by
  cases v <;> rfl

theorem parseValue_spec (v : PyVal) :
    parseValue v = Option.none ∨
      ∃ q0, pyFloat v = some q0 ∧ 0 ≤ q0 ∧ parseValue v = some (pyRound2 q0) := by
  rw [parseValue_eq]
  rcases hf : pyFloat v with _ | q0
  · left
    rfl
  · by_cases hq : q0 < 0
    · left
      show (if q0 < 0 then (Option.none : Option Rat) else some (pyRound2 q0)) = Option.none
      rw [if_pos hq]
    · right
      refine ⟨q0, rfl, le_of_not_lt hq, ?_⟩
      show (if q0 < 0 then (Option.none : Option Rat) else some (pyRound2 q0))
          = some (pyRound2 q0)
      rw [if_neg hq]

/-! ### Counter lemmas -/

theorem parseDaysRemaining_eq (v : PyVal) :
    parseDaysRemaining v = match pyInt v with
      | some n => some (if n < 0 then 0 else n)
      | Option.none => Option.none := by
  cases v <;> rfl

theorem parseDaysRemaining_nonneg (v : PyVal) :
    parseDaysRemaining v = Option.none ∨
      ∃ n, parseDaysRemaining v = some n ∧ 0 ≤ n := by
  rw [parseDaysRemaining_eq]
  rcases hi : pyInt v with _ | n
  · left
    rfl
  · right
    refine ⟨if n < 0 then 0 else n, rfl, ?_⟩
    split <;> omega

/-! ### Preview-length lemmas -/

theorem dropWhile_length_le (p : Char → Bool) (l : List Char) :
    (l.dropWhile p).length ≤ l.length := by
  induction l with
  | nil => simp
  | cons c cs ih =>
    rw [List.dropWhile_cons]
    split
    · exact le_trans ih (by simp)
    · simp

theorem stripList_length_le (l : List Char) : (stripList l).length ≤ l.length := by
  unfold stripList
  rw [List.length_reverse]
  calc ((l.dropWhile isPyWS).reverse.dropWhile isPyWS).length
      ≤ (l.dropWhile isPyWS).reverse.length := dropWhile_length_le _ _
    _ = (l.dropWhile isPyWS).length := List.length_reverse _
    _ ≤ l.length := dropWhile_length_le _ _

theorem pyStrip_length_le (s : String) : (pyStrip s).length ≤ s.length :=
  stripList_length_le s.data

theorem strmk_take_length_le (l : List Char) (n : Nat) :
    (String.mk (l.take n)).length ≤ n := by
  show (l.take n).length ≤ n
  rw [List.length_take]
  omega

theorem title_branch_len_le (t : String) :
    (if (t != "") = true then String.mk (t.data.take 150) else "Sem Descrição").length ≤ 150 := by
  split
  · exact strmk_take_length_le t.data 150
  · decide

theorem createPreview_len_le (d : Option String) (t : String) :
    (createPreview d t).length ≤ 153 := by
  rcases d with _ | s
  · simp only [createPreview]
    exact le_trans (title_branch_len_le t) (by omega)
  · simp only [createPreview]
    split
    · rw [String.length_append]
      have h1 : (pyStrip (String.mk (s.data.take 150))).length ≤ 150 :=
        le_trans (pyStrip_length_le _) (strmk_take_length_le s.data 150)
      have h2 : (if 150 < s.length then ("..." : String) else "").length ≤ 3 := by
        split <;> decide
      omega
    · exact le_trans (title_branch_len_le t) (by omega)

theorem createPreview_len_le_150 (d : Option String) (t : String)
    (h : ∀ s, d = some s → s.length ≤ 150) :
    (createPreview d t).length ≤ 150 := by
  rcases d with _ | s
  · simp only [createPreview]
    exact title_branch_len_le t
  · simp only [createPreview]
    split
    · rw [String.length_append]
      have h1 : (pyStrip (String.mk (s.data.take 150))).length ≤ 150 :=
        le_trans (pyStrip_length_le _) (strmk_take_length_le s.data 150)
      have h2 : (if 150 < s.length then ("..." : String) else "") = "" := by
        rw [if_neg]
        intro hc
        exact absurd (h s rfl) (by omega)
      rw [h2]
      simpa using h1
    · exact title_branch_len_le t

/-! ### Deep-clean lemmas -/

theorem deepCleanDescription_falsy (v : PyVal) (flag : Bool)
    (h : truthy v = false) : deepCleanDescription v flag = Option.none := by
  unfold deepCleanDescription
  rw [if_pos h]

theorem deepCleanDescription_short (v : PyVal) (flag : Bool)
    (h : (pyStrip (pyStr v)).length < 5) :
    deepCleanDescription v flag = Option.none := by
  unfold deepCleanDescription
  by_cases ht : truthy v = false
  · rw [if_pos ht]
  · rw [if_neg ht, if_pos]
    simp only [Bool.or_eq_true, decide_eq_true_eq]
    right
    exact h

theorem noneIfEmpty_some (d s : String) (h : noneIfEmpty d = some s) : s ≠ "" := by
  unfold noneIfEmpty at h
  split at h
  · exact absurd h (by simp)
  · rename_i hne
    rw [Option.some.injEq] at h
    subst h
    simpa using hne

theorem deepCleanDescription_ne_some_empty (v : PyVal) (flag : Bool) (s : String)
    (h : deepCleanDescription v flag = some s) : s ≠ "" := by
  unfold deepCleanDescription at h
  by_cases h1 : truthy v = false
  · rw [if_pos h1] at h
    exact absurd h (by simp)
  · rw [if_neg h1] at h
    simp only [] at h
    by_cases h2 : ((pyStrip (pyStr v) == "") || decide ((pyStrip (pyStr v)).length < 5)) = true
    · rw [if_pos h2] at h
      exact absurd h (by simp)
    · rw [if_neg h2] at h
      exact noneIfEmpty_some _ s h

/-! ### Record-preparation lemmas -/

theorem prepareItem_no_external_id (env : SupEnv) (entries : List (String × PyVal))
    (h : truthy (lookupD entries "external_id" PyVal.none) = false) :
    prepareItem env (.dict entries) = .ok Option.none := by
  simp only [prepareItem]
  rw [if_pos h]

theorem prepareBatch_drops (env : SupEnv) (xs ys : List PyVal)
    (entries : List (String × PyVal))
    (h : truthy (lookupD entries "external_id" PyVal.none) = false) :
    prepareBatch env (xs ++ PyVal.dict entries :: ys) = prepareBatch env (xs ++ ys) := by
  induction xs with
  | nil =>
    show prepareBatch env (PyVal.dict entries :: ys) = prepareBatch env ys
    simp only [prepareBatch, prepareItem_no_external_id env entries h]
  | cons x xs ih =>
    simp only [List.cons_append, prepareBatch, List.append_eq, ih]

theorem parseOffer_no_id (env : ScrEnv) (entries : List (String × PyVal))
    (c d : String) (h : truthy (lookupD entries "id" PyVal.none) = false) :
    parseOffer env (.dict entries) c d = Option.none := by
  unfold parseOffer parseOfferBody
  simp only [pyGetE]
  rw [if_pos h]

/-! ### The no-throw equation for `normalize` -/

theorem normalize_ok_of (item : List (String × PyVal)) (s0 : String) (t0 : String)
    (hs0 : lookupD item "source" (.str "") = PyVal.str s0)
    (ht0 : (if (lowerStr s0 == "megaleiloes") && truthy (lookupD item "external_id" (.str ""))
            then extractTitleE (lookupD item "external_id" (.str ""))
            else Except.ok (cleanTitle (lookupD item "title" (.str "")) true)) = .ok t0) :
    UniversalNormalizer.normalize item = .ok (assembleFields item t0) := by
  unfold UniversalNormalizer.normalize
  rw [hs0]
  show (match (if (lowerStr s0 == "megaleiloes") && truthy (lookupD item "external_id" (.str ""))
          then extractTitleE (lookupD item "external_id" (.str ""))
          else Except.ok (cleanTitle (lookupD item "title" (.str "")) true)) with
    | .error e => Except.error e
    | .ok ct0 => Except.ok (assembleFields item ct0)) = Except.ok (assembleFields item t0)
  rw [ht0]

theorem assembleFields_title (item : List (String × PyVal)) (ct0 : String) :
    lookupVal (assembleFields item ct0) "title" = some (.str (smartTitleCase ct0)) := rfl

theorem assembleFields_value (item : List (String × PyVal)) (ct0 : String) :
    lookupVal (assembleFields item ct0) "value"
      = some (optFloat (parseValue (lookupD item "value" PyVal.none))) := rfl

/-! ### Claim theorems -/

/-- Claim C1, counterexample: on the input dictionary with `source = None`,
`UniversalNormalizer.normalize` raises an `AttributeError`
(`item.get('source', '').lower()` is called on `None`), so the claim that it
never raises for any field values is false as stated. -/
theorem c1_counterexample :
    UniversalNormalizer.normalize [("source", PyVal.none)] = .error PyErr.attributeError := rfl

/-- Claim C1 (amended): for every input dictionary whose `source` and
`external_id` values, when present, are strings, `normalize` returns without
raising, the returned record has a non-null non-empty `title`, and its
`value` is either null or a non-negative number. -/
theorem c1_assemble_safe (item : List (String × PyVal))
    (hs : ∀ v, lookupVal item "source" = some v → ∃ s, v = PyVal.str s)
    (he : ∀ v, lookupVal item "external_id" = some v → ∃ s, v = PyVal.str s) :
    ∃ r, UniversalNormalizer.normalize item = .ok r ∧
      (∃ t, lookupVal r "title" = some (PyVal.str t) ∧ t ≠ "") ∧
      (lookupVal r "value" = some PyVal.none ∨
        ∃ q, lookupVal r "value" = some (PyVal.float q) ∧ 0 ≤ q) := by
  obtain ⟨s0, hs0⟩ : ∃ s0, lookupD item "source" (.str "") = PyVal.str s0 := by
    cases h : lookupVal item "source" with
    | none => exact ⟨"", by simp [lookupD, h]⟩
    | some v =>
      obtain ⟨s, rfl⟩ := hs v h
      exact ⟨s, by simp [lookupD, h]⟩
  obtain ⟨t0, ht0, htne⟩ : ∃ t0,
      (if (lowerStr s0 == "megaleiloes") && truthy (lookupD item "external_id" (.str "")) then
        extractTitleE (lookupD item "external_id" (.str ""))
      else Except.ok (cleanTitle (lookupD item "title" (.str "")) true)) = .ok t0 ∧ t0 ≠ "" := by
    by_cases hcond : ((lowerStr s0 == "megaleiloes")
        && truthy (lookupD item "external_id" (.str ""))) = true
    · rw [if_pos hcond]
      obtain ⟨e, hev⟩ : ∃ e, lookupD item "external_id" (.str "") = PyVal.str e := by
        cases h : lookupVal item "external_id" with
        | none => exact ⟨"", by simp [lookupD, h]⟩
        | some v =>
          obtain ⟨s, rfl⟩ := he v h
          exact ⟨s, by simp [lookupD, h]⟩
      rw [hev]
      unfold extractTitleE
      by_cases htr : truthy (PyVal.str e) = false
      · rw [if_pos htr]
        exact ⟨"Sem Título", rfl, by decide⟩
      · rw [if_neg htr]
        exact ⟨extractTitle e, rfl, extractTitle_ne_empty e⟩
    · rw [if_neg hcond]
      exact ⟨cleanTitle (lookupD item "title" (.str "")) true, rfl, cleanTitle_ne_empty _ _⟩
  refine ⟨assembleFields item t0, normalize_ok_of item s0 t0 hs0 ht0, ?_, ?_⟩
  · exact ⟨smartTitleCase t0, assembleFields_title item t0, smartTitleCase_ne_empty t0 htne⟩
  · rw [assembleFields_value]
    rcases parseValue_spec (lookupD item "value" PyVal.none) with hnone | ⟨q0, _, hq0, hsome⟩
    · left
      rw [hnone]
      rfl
    · right
      exact ⟨pyRound2 q0, by rw [hsome]; rfl, pyRound2_nonneg q0 hq0⟩

/-- Witness for C1: the empty input dictionary satisfies both hypotheses and
the conclusion. -/
theorem c1_assemble_safe_witness :
    (∀ v, lookupVal [] "source" = some v → ∃ s, v = PyVal.str s) ∧
    (∀ v, lookupVal [] "external_id" = some v → ∃ s, v = PyVal.str s) ∧
    (∃ r, UniversalNormalizer.normalize [] = .ok r ∧
      (∃ t, lookupVal r "title" = some (PyVal.str t) ∧ t ≠ "") ∧
      (lookupVal r "value" = some PyVal.none ∨
        ∃ q, lookupVal r "value" = some (PyVal.float q) ∧ 0 ≤ q)) :=
  ⟨fun _ h => Option.noConfusion h, fun _ h => Option.noConfusion h,
   c1_assemble_safe [] (fun _ h => Option.noConfusion h) (fun _ h => Option.noConfusion h)⟩

/-- Claim C2: a raw item without truthy `external_id` yields no record at all
(`_prepare_item` returns `None`), and the upsert preparation loop drops it
from the batch without disturbing the other items or the error count. -/
theorem c2_reject_missing_external_id :
    (∀ (env : SupEnv) (entries : List (String × PyVal)),
       truthy (lookupD entries "external_id" PyVal.none) = false →
       prepareItem env (.dict entries) = .ok Option.none) ∧
    (∀ (env : SupEnv) (xs ys : List PyVal) (entries : List (String × PyVal)),
       truthy (lookupD entries "external_id" PyVal.none) = false →
       prepareBatch env (xs ++ PyVal.dict entries :: ys) = prepareBatch env (xs ++ ys)) :=
  ⟨prepareItem_no_external_id, prepareBatch_drops⟩

/-- Witness for C2: the empty dict has no `external_id` and is dropped. -/
theorem c2_reject_missing_external_id_witness :
    truthy (lookupD ([] : List (String × PyVal)) "external_id" PyVal.none) = false ∧
    prepareItem stubSupEnv (.dict []) = .ok Option.none ∧
    prepareBatch stubSupEnv [PyVal.dict []] = prepareBatch stubSupEnv [] :=
  ⟨by decide, c2_reject_missing_external_id.1 stubSupEnv [] (by decide),
   c2_reject_missing_external_id.2 stubSupEnv [] [] [] (by decide)⟩

/-- Claim C3: state normalization trims and uppercases its input and returns
it exactly when the result lies in the fixed 27-entry valid-state set,
returning null otherwise; in particular `sp ↦ SP`, `XX ↦ null`,
`None ↦ null`. -/
theorem c3_normalize_state :
    (∀ v, validateState v =
       if validStates.contains (upperStr (pyStrip (pyStr v))) = true
       then some (upperStr (pyStrip (pyStr v))) else Option.none) ∧
    validStates.length = 27 ∧ validStates.Nodup ∧
    validateState (.str "sp") = some "SP" ∧
    validateState (.str "XX") = Option.none ∧
    validateState PyVal.none = Option.none := by
  refine ⟨?_, by decide, by decide, by decide, by decide, by decide⟩
  intro v
  by_cases ht : truthy v = false
  · unfold validateState
    rw [if_pos ht]
    have hns : validStates.contains (upperStr (pyStrip (pyStr v))) = false := by
      cases v with
      | none => decide
      | bool b =>
        cases b with
        | false => decide
        | true => simp [truthy] at ht
      | int n =>
        have hn : n = 0 := by simpa [truthy] using ht
        subst hn
        decide
      | float q =>
        have hq : q = 0 := by simpa [truthy] using ht
        subst hq
        decide
      | str s =>
        have hs : s = "" := by simpa [truthy] using ht
        subst hs
        decide
      | list xs =>
        rw [show pyStr (PyVal.list xs) = "[...]" from rfl]
        decide
      | dict xs =>
        rw [show pyStr (PyVal.dict xs) = "\x7b...\x7d" from rfl]
        decide
    rw [if_neg (by rw [hns]; simp)]
  · unfold validateState
    rw [if_neg ht]

/-- Claim C4: money-value normalization returns null on non-coercible and on
negative inputs, and otherwise a non-negative value with at most two decimal
places within half a cent of the coerced input; `"-5" ↦ null` and
`199.999 ↦ 200.0`. -/
theorem c4_normalize_value :
    (∀ v, pyFloat v = Option.none → parseValue v = Option.none) ∧
    (∀ v q0, pyFloat v = some q0 → q0 < 0 → parseValue v = Option.none) ∧
    (∀ v q0, pyFloat v = some q0 → 0 ≤ q0 →
       ∃ r, parseValue v = some r ∧ 0 ≤ r ∧ (r * 100).den = 1 ∧ |r - q0| ≤ 1 / 200) ∧
    parseValue (.str "-5") = Option.none ∧
    parseValue (.float (mkRat 199999 1000)) = some (mkRat 200 1) := by
  refine ⟨?_, ?_, ?_, by decide, by decide⟩
  · intro v h
    rw [parseValue_eq, h]
  · intro v q0 h hneg
    rw [parseValue_eq, h]
    show (if q0 < 0 then (Option.none : Option Rat) else some (pyRound2 q0)) = Option.none
    rw [if_pos hneg]
  · intro v q0 h hpos
    refine ⟨pyRound2 q0, ?_, pyRound2_nonneg q0 hpos, pyRound2_two_decimals q0,
      pyRound2_close q0⟩
    rw [parseValue_eq, h]
    show (if q0 < 0 then (Option.none : Option Rat) else some (pyRound2 q0))
        = some (pyRound2 q0)
    rw [if_neg (not_lt.mpr hpos)]

/-- Witness for C4: the value 5 is coercible and non-negative. -/
theorem c4_normalize_value_witness :
    pyFloat (PyVal.float (mkRat 5 1)) = some (mkRat 5 1) ∧ (0 : Rat) ≤ mkRat 5 1 ∧
    (∃ r, parseValue (PyVal.float (mkRat 5 1)) = some r ∧ 0 ≤ r ∧
      (r * 100).den = 1 ∧ |r - mkRat 5 1| ≤ 1 / 200) :=
  ⟨rfl, by decide,
   c4_normalize_value.2.2.1 (PyVal.float (mkRat 5 1)) (mkRat 5 1) rfl (by decide)⟩

/-- Claim C5, counterexample: a record produced by `normalize` whose
description still holds a literal `&amp;` decodes differently on a second
pass through the description normalizer, so full-record re-normalization is
not a fixed point. -/
theorem c5_counterexample :
    fieldStrOf (UniversalNormalizer.normalize itemEntity) "description"
      = some "&amp; hello" ∧
    deepCleanDescription (.str "&amp; hello") true = some "& hello" ∧
    ("&amp; hello" : String) ≠ "& hello" :=
  ⟨by decide, by decide, by decide⟩

/-- Claim C5 (amended): the Title-Case component is idempotent — applying
`_smart_title_case` twice gives the same result as applying it once, for
every string (full-record idempotence fails, see the counterexample). -/
theorem c5_title_case_idempotent (s : String) :
    smartTitleCase (smartTitleCase s) = smartTitleCase s :=
  smartTitleCase_idem s

/-- Claim C6, counterexample: the pipeline's Title Case lowercases the
stopwords `em` and `de`, so the produced title differs from the claimed
string with capitalized `Em`/`De`. -/
theorem c6_counterexample :
    fieldStrOf (UniversalNormalizer.normalize itemMega) "title"
      ≠ some "Sofa Em Estrutura Macica Tecido De Veludo" := by decide

/-- Claim C6 (amended): for the MegaLeilões slug of the spec example, the
extracted and title-cased title is exactly
"Sofa em Estrutura Macica Tecido de Veludo" (prefix and trailing lot code
stripped, separators to spaces, Title Case with stopwords lowercased). -/
theorem c6_title_extraction :
    fieldStrOf (UniversalNormalizer.normalize itemMega) "title"
      = some "Sofa em Estrutura Macica Tecido de Veludo" := by decide

/-- Claim C7, counterexample: a description whose cleaned-up text is shorter
than 5 characters is returned as-is, not nulled — the length check runs on
the raw (stripped) input, before cleanup. -/
theorem c7_counterexample :
    deepCleanDescription (.str "<p>ab</p>") true = some "ab" ∧
    ("ab" : String).length < 5 :=
  ⟨by decide, by decide⟩

/-- Claim C7 (amended): description cleaning returns null for falsy input and
whenever the stripped *input* is shorter than 5 characters, and it never
returns the empty string; text that becomes shorter than 5 characters only
after cleanup is returned as-is. -/
theorem c7_short_description_null :
    (∀ v flag, truthy v = false → deepCleanDescription v flag = Option.none) ∧
    (∀ v flag, (pyStrip (pyStr v)).length < 5 → deepCleanDescription v flag = Option.none) ∧
    (∀ v flag s, deepCleanDescription v flag = some s → s ≠ "") :=
  ⟨deepCleanDescription_falsy, deepCleanDescription_short, deepCleanDescription_ne_some_empty⟩

/-- Witness for C7: "abc" is shorter than 5 characters and is nulled. -/
theorem c7_short_description_null_witness :
    (pyStrip (pyStr (PyVal.str "abc"))).length < 5 ∧
    deepCleanDescription (PyVal.str "abc") false = Option.none :=
  ⟨by decide, c7_short_description_null.2.1 (PyVal.str "abc") false (by decide)⟩

/-- Claim C8, counterexample: a 160-character description yields a
153-character preview (150 characters plus the 3-character ellipsis), so the
claimed 150-character bound is false. -/
theorem c8_counterexample :
    fieldLenOf (UniversalNormalizer.normalize itemLongDesc) "description_preview"
      = some 153 ∧ ¬ (153 ≤ 150) :=
  ⟨by decide, by decide⟩

/-- Claim C8 (amended): `description_preview` is at most 153 characters (150
plus the ellipsis appended when the description is truncated), and at most
150 characters whenever the description does not exceed 150 characters. -/
theorem c8_preview_bounds :
    (∀ d t, (createPreview d t).length ≤ 153) ∧
    (∀ d t, (∀ s, d = some s → s.length ≤ 150) → (createPreview d t).length ≤ 150) :=
  ⟨createPreview_len_le, createPreview_len_le_150⟩

/-- Witness for C8: a short description keeps the preview within 150
characters. -/
theorem c8_preview_bounds_witness :
    (∀ s, (some "short note" : Option String) = some s → s.length ≤ 150) ∧
    (createPreview (some "short note") "T").length ≤ 150 :=
  ⟨fun s h => by
      have h2 := Option.some.inj h
      subst h2
      decide,
   c8_preview_bounds.2 (some "short note") "T" (fun s h => by
      have h2 := Option.some.inj h
      subst h2
      decide)⟩

/-- Claim C9, counterexample: `_parse_int` does not clamp negatives, so a
raw `total_visits` of -5 appears as -5 in the normalized output. -/
theorem c9_counterexample :
    fieldIntOf (UniversalNormalizer.normalize itemNegVisits) "total_visits"
      = some (-5) ∧ (-5 : Int) < 0 :=
  ⟨by decide, by decide⟩

/-- Claim C9 (amended): days-remaining clamps negatives to 0 (or null for
non-numeric input); generic counters return the caller default for `None`
and absent inputs (0 at every `normalize` call site) but pass negative
numeric inputs through unclamped. -/
theorem c9_counters :
    (∀ v, parseDaysRemaining v = Option.none ∨
       ∃ n, parseDaysRemaining v = some n ∧ 0 ≤ n) ∧
    (∀ d : Int, parseInt PyVal.none d = d) ∧
    parseInt (.int (-5)) 0 = -5 ∧
    fieldIntOf (UniversalNormalizer.normalize []) "total_visits" = some 0 ∧
    fieldIntOf (UniversalNormalizer.normalize []) "total_bids" = some 0 ∧
    fieldIntOf (UniversalNormalizer.normalize []) "total_bidders" = some 0 :=
  ⟨parseDaysRemaining_nonneg, fun _ => rfl, by decide, by decide, by decide, by decide⟩

/-- Claim C10: `_parse_offer` is total (exceptions are swallowed into `None`):
an offer without truthy `id` yields `None`; an offer whose store has no name
makes the body raise `AttributeError` at the demo/test check, swallowed into
`None`; an offer with a positive price below 1 yields `None`. -/
theorem c10_parse_offer_total :
    (∀ (env : ScrEnv) (entries : List (String × PyVal)) (c d : String),
       truthy (lookupD entries "id" PyVal.none) = false →
       parseOffer env (.dict entries) c d = Option.none) ∧
    (∀ env : ScrEnv,
       parseOfferBody env noNameStoreOffer "C" "D" = .error PyErr.attributeError ∧
       parseOffer env noNameStoreOffer "C" "D" = Option.none) ∧
    (∀ env : ScrEnv, parseOffer env lowPriceOffer "C" "D" = Option.none) :=
  ⟨parseOffer_no_id, fun _ => ⟨rfl, rfl⟩, fun _ => rfl⟩

/-- Witness for C10: the empty offer dict has no `id` and is dropped. -/
theorem c10_parse_offer_total_witness :
    truthy (lookupD ([] : List (String × PyVal)) "id" PyVal.none) = false ∧
    parseOffer stubScrEnv (.dict []) "C" "D" = Option.none :=
  ⟨by decide, c10_parse_offer_total.1 stubScrEnv [] "C" "D" (by decide)⟩
